import Mathlib

/-!
Shallow embedding of the regspy vehicle-lookup gateway (src/app.py,
src/database.py, src/rate_limiter.py, src/vehicle_api.py, src/utils.py).

Conventions of the embedding:
* Wall-clock time is an `Int` of seconds since the epoch; `datetime.utcnow()`
  becomes an explicit `now : Int` parameter.  Python's `timedelta.days` is
  floor division by 86400, i.e. `Int.fdiv`.
* An MOT test record is a JSON object; the merge logic in
  `database.merge_mot_data` only ever reads its `completedDate` key, so a
  record is modelled as that key (ISO date strings compare lexicographically,
  which is order-isomorphic to `Nat`) plus an opaque payload standing for all
  the remaining fields.
* A Python dict keyed by `completedDate` is modelled as an association list
  `List (Nat × α)` in insertion order: inserting an existing key overwrites
  the value in place, a new key is appended — exactly CPython's ordered-dict
  semantics, so `list(d.values())` is `map (·.2)`.
* `list.sort(key=..., reverse=True)` is a comparison sort on the date key;
  dictionary values have pairwise distinct keys, so any comparison sort
  produces the same list and we use insertion sort.
* SQLAlchemy rows become structures, the single-registration slice of each
  table an `Option` of the row; `db.commit()` becomes returning the new state.
-/

namespace Regspy

/-- One MOT test object as consumed by `database.merge_mot_data`: its
`completedDate` key plus an opaque payload abstracting every other field
(`testResult`, odometer readings, defects, ...). -/
structure MotTest where
  completedDate : Nat
  payload : Nat
deriving DecidableEq, Repr

/-- A raw MOT test object that may lack the `completedDate` key
(`none` = key absent), used to model the `KeyError` behaviour of
`database.merge_mot_data` on malformed records. -/
structure RawTest where
  completedDate : Option Nat
  payload : Nat
deriving DecidableEq, Repr

/-- Python-dict insertion on an insertion-ordered association list:
an existing key is overwritten in place, a new key is appended. -/
def dictIns {α : Type} (d : List (Nat × α)) (k : Nat) (v : α) : List (Nat × α) :=
  if d.any (fun p => p.1 = k) then d.map (fun p => if p.1 = k then (k, v) else p)
  else d ++ [(k, v)]

/-- Dictionary lookup on the association list. -/
def dlookup {α : Type} (k : Nat) : List (Nat × α) → Option α
  | [] => none
  | p :: d => if p.1 = k then some p.2 else dlookup k d

/-- The keys of the association list, in insertion order. -/
def keys {α : Type} (d : List (Nat × α)) : List Nat :=
  d.map (fun p => p.1)

/-- Insert a keyed pair into a list sorted descending by key. -/
def insertDesc {α : Type} (p : Nat × α) : List (Nat × α) → List (Nat × α)
  | [] => [p]
  | q :: l => if p.1 ≤ q.1 then q :: insertDesc p l else p :: q :: l

/-- Sort a keyed list descending by key (models
`merged_data.sort(key=lambda x: x['completedDate'], reverse=True)`;
the keys are pairwise distinct when this is applied, so the choice of
comparison sort is immaterial). -/
def sortDesc {α : Type} : List (Nat × α) → List (Nat × α)
  | [] => []
  | p :: l => insertDesc p (sortDesc l)

/-- Build the `completedDate`-keyed dictionary from a list of test records,
starting from `d` (models both the dict comprehension over `existing_data`
and the overlay loop over `new_data`). -/
def buildDict (ts : List MotTest) (d : List (Nat × MotTest)) : List (Nat × MotTest) :=
  ts.foldl (fun d t => dictIns d t.completedDate t) d

/-- `database.merge_mot_data existing_data new_data`: key the existing
records by `completedDate`, overlay the new records (last write wins),
return the values sorted by date, newest first. -/
def merge_mot_data (existing_data new_data : List MotTest) : List MotTest :=
  let existing_dict := buildDict existing_data []
  let merged_dict := buildDict new_data existing_dict
  (sortDesc merged_dict).map (fun p => p.2)

/-- `database.merge_mot_data` on raw records, modelling the `KeyError`
raised by `test['completedDate']` / `new_test['completedDate']` when a
record lacks the key: `none` is the raised lookup error. -/
def buildDictRaw (ts : List RawTest) (d : Option (List (Nat × RawTest))) :
    Option (List (Nat × RawTest)) :=
  ts.foldl
    (fun d t =>
      match d, t.completedDate with
      | some l, some k => some (dictIns l k t)
      | _, _ => none)
    d

/-- Raw merge: `none` exactly when some input record lacks `completedDate`
(the `KeyError` path), otherwise the merged, date-sorted value list. -/
def merge_mot_data_raw (existing_data new_data : List RawTest) :
    Option (List RawTest) :=
  match buildDictRaw new_data (buildDictRaw existing_data (some [])) with
  | some d => some ((sortDesc d).map (fun p => p.2))
  | none => none

/-- Left-biased choice on `Option` (specification helper used to state how
later dictionary writes shadow earlier ones). -/
def oOr {α : Type} (a b : Option α) : Option α :=
  match a with
  | some x => some x
  | none => b

/-- The last record in `ts` whose `completedDate` is `k` (specification
helper: the value a sequence of dictionary writes leaves at key `k`). -/
def lastWith (k : Nat) : List MotTest → Option MotTest
  | [] => none
  | t :: ts => oOr (lastWith k ts) (if t.completedDate = k then some t else none)

/-- `rate_limiter.RateLimiter`, restricted to a single client key (every
claim is about one client): the window configuration plus that client's
timestamp list `self.requests[ip]`.  Timestamps are integral seconds. -/
structure RateLimiter where
  window_size : Int := 60
  max_requests : Nat := 10
  requests : List Int := []
deriving DecidableEq, Repr

/-- `RateLimiter._cleanup_old_requests`: drop timestamps older than the
window (`now - req_time <= self.window_size` is kept). -/
def cleanup_old_requests (rl : RateLimiter) (now : Int) : RateLimiter :=
  { rl with requests := rl.requests.filter (fun req_time => now - req_time ≤ rl.window_size) }

/-- `RateLimiter.is_rate_limited`: prune, record the current attempt, then
report whether the window now holds more than `max_requests` entries.
Returns the flag together with the updated limiter state. -/
def is_rate_limited (rl : RateLimiter) (now : Int) : Bool × RateLimiter :=
  let rl1 := cleanup_old_requests rl now
  let rl2 := { rl1 with requests := rl1.requests ++ [now] }
  (decide (rl2.requests.length > rl2.max_requests), rl2)

/-- One row of the `vehicle_cache` table (`database.VehicleCache`), generic
in the decoded type of the `mot_data` JSON column so that the same row shape
serves both well-formed (`List MotTest`) and raw (`List RawTest`) MOT data.
`json.dumps`/`json.loads` round-tripping of that column is elided: the row
stores the decoded list directly. -/
structure VehicleCacheG (μ : Type) where
  registration_number : String
  make : Option String := none
  model : Option String := none
  first_used_date : Option String := none
  fuel_type : Option String := none
  primary_colour : Option String := none
  registration_date : Option String := none
  manufacture_date : Option String := none
  engine_size : Option Int := none
  mot_data : μ
  tax_status : Option String := none
  tax_due_date : Option String := none
  mot_status : Option String := none
  mot_expiry_date : Option String := none
  year_of_manufacture : Option Int := none
  co2_emissions : Option Int := none
  last_updated : Int
  last_requested : Int
  request_count : Int
deriving DecidableEq, Repr

/-- A `vehicle_cache` row with well-formed MOT data. -/
abbrev VehicleCache := VehicleCacheG (List MotTest)

/-- The JSON document handed to `cache_vehicle_data` / returned by
`vehicle_api.get_vehicle_data`, generic in the MOT test record type.
Each tracked key is doubly optional: the outer `Option` is key presence in
the dict, the inner one a JSON `null` value — so `d.get(k, default)` is
`field.getD default` and `d.get(k)` is `field.join`.  Keys never read by
the code are abstracted away. -/
structure FreshDataG (τ : Type) where
  make : Option (Option String) := none
  model : Option (Option String) := none
  firstUsedDate : Option (Option String) := none
  fuelType : Option (Option String) := none
  colour : Option (Option String) := none
  primaryColour : Option (Option String) := none
  registrationDate : Option (Option String) := none
  manufactureDate : Option (Option String) := none
  engineCapacity : Option (Option Int) := none
  taxStatus : Option (Option String) := none
  taxDueDate : Option (Option String) := none
  motStatus : Option (Option String) := none
  motExpiryDate : Option (Option String) := none
  yearOfManufacture : Option (Option Int) := none
  co2Emissions : Option (Option Int) := none
  registration_number : Option (Option String) := none
  motTests : Option (List τ) := none
deriving DecidableEq, Repr

/-- A fresh-data document with well-formed MOT test records. -/
abbrev FreshData := FreshDataG MotTest

/-- `database.cache_vehicle_data` on the single-registration slice of the
store: update an existing row field-by-field via `data.get(key, old)`
(a present key — even one holding `null` — overwrites; an absent key keeps
the old value) and merge the MOT histories, or create a fresh row with
`request_count = 1` and the document's `motTests` stored verbatim.
Returns the committed row. -/
def cache_vehicle_data (v? : Option VehicleCache) (reg : String) (data : FreshData)
    (now : Int) : VehicleCache :=
  match v? with
  | some vehicle =>
      { vehicle with
        make := data.make.getD vehicle.make
        model := data.model.getD vehicle.model
        first_used_date := data.firstUsedDate.getD vehicle.first_used_date
        fuel_type := data.fuelType.getD vehicle.fuel_type
        primary_colour := data.colour.getD vehicle.primary_colour
        registration_date := data.registrationDate.getD vehicle.registration_date
        manufacture_date := data.manufactureDate.getD vehicle.manufacture_date
        engine_size := data.engineCapacity.getD vehicle.engine_size
        tax_status := data.taxStatus.getD vehicle.tax_status
        tax_due_date := data.taxDueDate.getD vehicle.tax_due_date
        mot_status := data.motStatus.getD vehicle.mot_status
        mot_expiry_date := data.motExpiryDate.getD vehicle.mot_expiry_date
        year_of_manufacture := data.yearOfManufacture.getD vehicle.year_of_manufacture
        co2_emissions := data.co2Emissions.getD vehicle.co2_emissions
        mot_data := merge_mot_data vehicle.mot_data (data.motTests.getD [])
        last_updated := now
        last_requested := now
        request_count := vehicle.request_count + 1 }
  | none =>
      { registration_number := reg
        make := data.make.join
        model := data.model.join
        first_used_date := data.firstUsedDate.join
        fuel_type := data.fuelType.join
        primary_colour := data.colour.join
        registration_date := data.registrationDate.join
        manufacture_date := data.manufactureDate.join
        engine_size := data.engineCapacity.join
        mot_data := data.motTests.getD []
        tax_status := data.taxStatus.join
        tax_due_date := data.taxDueDate.join
        mot_status := data.motStatus.join
        mot_expiry_date := data.motExpiryDate.join
        year_of_manufacture := data.yearOfManufacture.join
        co2_emissions := data.co2Emissions.join
        last_updated := now
        last_requested := now
        request_count := 1 }

/-- `database.cache_vehicle_data` over raw MOT records: identical to
`cache_vehicle_data` except that the update branch propagates the
`KeyError` (`none`) of the raw merge; the create branch stores the raw
tests verbatim and cannot fail. -/
def cache_vehicle_data_raw (v? : Option (VehicleCacheG (List RawTest))) (reg : String)
    (data : FreshDataG RawTest) (now : Int) : Option (VehicleCacheG (List RawTest)) :=
  match v? with
  | some vehicle =>
      match merge_mot_data_raw vehicle.mot_data (data.motTests.getD []) with
      | none => none
      | some merged =>
          some { vehicle with
            make := data.make.getD vehicle.make
            model := data.model.getD vehicle.model
            first_used_date := data.firstUsedDate.getD vehicle.first_used_date
            fuel_type := data.fuelType.getD vehicle.fuel_type
            primary_colour := data.colour.getD vehicle.primary_colour
            registration_date := data.registrationDate.getD vehicle.registration_date
            manufacture_date := data.manufactureDate.getD vehicle.manufacture_date
            engine_size := data.engineCapacity.getD vehicle.engine_size
            tax_status := data.taxStatus.getD vehicle.tax_status
            tax_due_date := data.taxDueDate.getD vehicle.tax_due_date
            mot_status := data.motStatus.getD vehicle.mot_status
            mot_expiry_date := data.motExpiryDate.getD vehicle.mot_expiry_date
            year_of_manufacture := data.yearOfManufacture.getD vehicle.year_of_manufacture
            co2_emissions := data.co2Emissions.getD vehicle.co2_emissions
            mot_data := merged
            last_updated := now
            last_requested := now
            request_count := vehicle.request_count + 1 }
  | none =>
      some { registration_number := reg
             make := data.make.join
             model := data.model.join
             first_used_date := data.firstUsedDate.join
             fuel_type := data.fuelType.join
             primary_colour := data.colour.join
             registration_date := data.registrationDate.join
             manufacture_date := data.manufactureDate.join
             engine_size := data.engineCapacity.join
             mot_data := data.motTests.getD []
             tax_status := data.taxStatus.join
             tax_due_date := data.taxDueDate.join
             mot_status := data.motStatus.join
             mot_expiry_date := data.motExpiryDate.join
             year_of_manufacture := data.yearOfManufacture.join
             co2_emissions := data.co2Emissions.join
             last_updated := now
             last_requested := now
             request_count := 1 }

/-- `database.get_cached_vehicle_data`: `(returned data, store after)`.
A row whose `last_updated` is at least one whole elapsed day old
(`(utcnow - last_updated).days >= 1`, i.e. floor division of the elapsed
seconds by 86400) is stale: return `None` and leave the row untouched.
A fresh row has `request_count` bumped and `last_requested` touched, and the
updated row (columns plus decoded `motTests`) is returned. -/
def get_cached_vehicle_data (v? : Option VehicleCache) (now : Int) :
    Option VehicleCache × Option VehicleCache :=
  match v? with
  | none => (none, none)
  | some vehicle =>
      if (now - vehicle.last_updated).fdiv 86400 ≥ 1 then
        (none, some vehicle)
      else
        let vehicle' := { vehicle with
          last_requested := now
          request_count := vehicle.request_count + 1 }
        (some vehicle', some vehicle')

/-- `database.increment_request_count`: bump the counter and touch
`last_requested` when the row exists, do nothing otherwise. -/
def increment_request_count (v? : Option VehicleCache) (now : Int) : Option VehicleCache :=
  match v? with
  | some vehicle => some { vehicle with
      request_count := vehicle.request_count + 1
      last_requested := now }
  | none => none

/-- `database.get_request_count`: current counter, `0` when absent. -/
def get_request_count (v? : Option VehicleCache) : Int :=
  match v? with
  | some vehicle => vehicle.request_count
  | none => 0

/-- `database.check_cache_exists`. -/
def check_cache_exists (v? : Option VehicleCache) : Bool :=
  v?.isSome

/-- One row of the `request_logs` table; the client/geo metadata columns are
irrelevant to every claim and are abstracted away. -/
structure RequestLogRow where
  registration_number : String
  query_time : Int
  is_cached : Bool
deriving DecidableEq, Repr

/-- The mutable database state seen by one request for one registration:
its `vehicle_cache` row (if any) and the `request_logs` table. -/
structure AppState where
  vehicle : Option VehicleCache
  logs : List RequestLogRow
deriving DecidableEq, Repr

/-- `database.log_request`: append one `RequestLog` row, then
`increment_request_count`. -/
def log_request (st : AppState) (reg : String) (query_time : Int) (is_cached : Bool)
    (now : Int) : AppState :=
  { vehicle := increment_request_count st.vehicle now
    logs := st.logs ++ [{ registration_number := reg, query_time := query_time,
                          is_cached := is_cached }] }

/-- An HTTP response from an upstream API: status code plus decoded JSON
body (the keys the pipeline reads). -/
structure HttpResp where
  status_code : Int
  body : FreshData
deriving DecidableEq, Repr

/-- Outcome of `vehicle_api.get_vehicle_data`: a combined document, a typed
`VehicleAPIError`, or an uncaught Python exception (e.g. the
`raise_for_status()` inside `utils.generate_mot_access_token`, or a raised
connection error from `requests.get`). -/
inductive ApiOutcome where
  | ok (data : FreshData)
  | apiError (message : String) (status_code : Int)
  | exc
deriving DecidableEq, Repr

/-- Python's `{**ves_data, **mot_data}`: keys of the right operand win,
including keys holding `null`; fieldwise on the tracked keys. -/
def docMerge (ves mot : FreshData) : FreshData where
  make := mot.make.orElse (fun _ => ves.make)
  model := mot.model.orElse (fun _ => ves.model)
  firstUsedDate := mot.firstUsedDate.orElse (fun _ => ves.firstUsedDate)
  fuelType := mot.fuelType.orElse (fun _ => ves.fuelType)
  colour := mot.colour.orElse (fun _ => ves.colour)
  primaryColour := mot.primaryColour.orElse (fun _ => ves.primaryColour)
  registrationDate := mot.registrationDate.orElse (fun _ => ves.registrationDate)
  manufactureDate := mot.manufactureDate.orElse (fun _ => ves.manufactureDate)
  engineCapacity := mot.engineCapacity.orElse (fun _ => ves.engineCapacity)
  taxStatus := mot.taxStatus.orElse (fun _ => ves.taxStatus)
  taxDueDate := mot.taxDueDate.orElse (fun _ => ves.taxDueDate)
  motStatus := mot.motStatus.orElse (fun _ => ves.motStatus)
  motExpiryDate := mot.motExpiryDate.orElse (fun _ => ves.motExpiryDate)
  yearOfManufacture := mot.yearOfManufacture.orElse (fun _ => ves.yearOfManufacture)
  co2Emissions := mot.co2Emissions.orElse (fun _ => ves.co2Emissions)
  registration_number := mot.registration_number.orElse (fun _ => ves.registration_number)
  motTests := mot.motTests.orElse (fun _ => ves.motTests)

/-- `if 'motTests' not in combined_data: combined_data['motTests'] = []`. -/
def ensureMotTests (combined : FreshData) : FreshData :=
  { combined with motTests := some (combined.motTests.getD []) }

/-- `vehicle_api.get_vehicle_data`.  The network boundary is passed in:
`ves` is the VES response; `token` is the MOT access token, `none` when
`generate_mot_access_token` raised (its `raise_for_status()` is uncaught
here); `mot` is the MOT API response, `none` when `requests.get` itself
raised.  A non-200 VES status maps to a `VehicleAPIError`; after a VES
success, only a non-200 MOT *response* is tolerated (empty MOT document) —
a raised exception propagates (`ApiOutcome.exc`). -/
def get_vehicle_data (ves : HttpResp) (token : Option String) (mot : Option HttpResp) :
    ApiOutcome :=
  if ves.status_code ≠ 200 then
    if ves.status_code = 404 then .apiError "Vehicle not found" 404
    else if ves.status_code = 400 then .apiError "Invalid registration number" 400
    else .apiError ("Error fetching vehicle data from VES API: " ++ toString ves.status_code)
           ves.status_code
  else
    match token with
    | none => .exc
    | some _ =>
        match mot with
        | none => .exc
        | some mot_response =>
            let mot_data : FreshData :=
              if mot_response.status_code ≠ 200 then {} else mot_response.body
            .ok (ensureMotTests (docMerge ves.body mot_data))

/-- Python truthiness of an optional string (`None` and `""` are falsy). -/
def truthyS (a : Option String) : Bool :=
  match a with
  | some s => s ≠ ""
  | none => false

/-- Python truthiness of an optional integer (`None` and `0` are falsy). -/
def truthyI (a : Option Int) : Bool :=
  match a with
  | some n => n ≠ 0
  | none => false

/-- Python `a or b` on optional strings. -/
def pyOrS (a b : Option String) : Option String :=
  if truthyS a then a else b

/-- Python `a or b` on optional integers. -/
def pyOrI (a b : Option Int) : Option Int :=
  if truthyI a then a else b

/-- The flat mapping built by `utils.normalize_vehicle_data`. -/
structure NormalizedData where
  co2_emissions : Option Int
  engine_size : Option Int
  first_used_date : Option String
  fuel_type : Option String
  make : Option String
  manufacture_date : Option String
  model : Option String
  mot_expiry_date : Option String
  mot_status : Option String
  primary_colour : Option String
  registration_date : Option String
  registration_number : Option String
  tax_due_date : Option String
  tax_status : Option String
  year_of_manufacture : Option Int
  motTests : Option (List MotTest)
  request_count : Option Int
deriving DecidableEq, Repr

/-- `utils.normalize_vehicle_data` applied to a fresh upstream document:
the document carries only camel-case keys, so each
`data.get('camelKey') or data.get('snake_key')` reads the camel-case value
(dropped to the snake-case fallback `None` when falsy), and the purely
snake-case reads (`registration_number`, `request_count`) come out `None`
unless the upstream document happened to carry them.  Note the fresh
document's colour lives under `colour`, which this function never reads. -/
def normalize_fresh (data : FreshData) : NormalizedData where
  co2_emissions := pyOrI data.co2Emissions.join none
  engine_size := pyOrI data.engineCapacity.join none
  first_used_date := pyOrS data.firstUsedDate.join none
  fuel_type := pyOrS data.fuelType.join none
  make := data.make.join
  manufacture_date := pyOrS data.manufactureDate.join none
  model := data.model.join
  mot_expiry_date := pyOrS data.motExpiryDate.join none
  mot_status := pyOrS data.motStatus.join none
  primary_colour := pyOrS data.primaryColour.join none
  registration_date := pyOrS data.registrationDate.join none
  registration_number := data.registration_number.join
  tax_due_date := pyOrS data.taxDueDate.join none
  tax_status := pyOrS data.taxStatus.join none
  year_of_manufacture := pyOrI data.yearOfManufacture.join none
  motTests := data.motTests
  request_count := none

/-- `utils.normalize_vehicle_data` applied to the dict built from a cached
row's columns (snake-case keys) plus its decoded `motTests`: every
camel-case read yields `None`, so `None or data.get('snake_key')` passes the
column value through — even a falsy one. -/
def normalize_record (vehicle : VehicleCache) : NormalizedData where
  co2_emissions := vehicle.co2_emissions
  engine_size := vehicle.engine_size
  first_used_date := vehicle.first_used_date
  fuel_type := vehicle.fuel_type
  make := vehicle.make
  manufacture_date := vehicle.manufacture_date
  model := vehicle.model
  mot_expiry_date := vehicle.mot_expiry_date
  mot_status := vehicle.mot_status
  primary_colour := vehicle.primary_colour
  registration_date := vehicle.registration_date
  registration_number := some vehicle.registration_number
  tax_due_date := vehicle.tax_due_date
  tax_status := vehicle.tax_status
  year_of_manufacture := vehicle.year_of_manufacture
  motTests := some vehicle.mot_data
  request_count := some vehicle.request_count

/-- An HTTP response from the `/vehicle` route. -/
inductive Response where
  | success (data : NormalizedData)
  | error (message : String) (status : Int)
deriving DecidableEq, Repr

/-- The response a raised exception escaping the handler produces
(framework-level 500, no body of ours). -/
def frameworkResp : Response := .error "Internal Server Error" 500

/-- The MOT tests carried by a success response (`none` on errors). -/
def respMotTests : Response → Option (List MotTest)
  | .success data => data.motTests
  | .error _ _ => none

/-- The `primary_colour` carried by a success response. -/
def respPrimaryColour : Response → Option String
  | .success data => data.primary_colour
  | .error _ _ => none

/-- The body of `app.vehicle` (inside `with get_db()`), for one normalized
registration.  The upstream boundary (`ves`, `token`, `mot`) parameterizes
`get_vehicle_data`; `log_ok` models whether writing a `RequestLog` row
succeeds — when `false`, `log_request` raises (modelled as raising before
any write), the `except Exception` arm's own `log_request` raises again and
the exception escapes to the framework.  Returns the response, the database
state after the request, and whether the aggregator was invoked. -/
def vehicle_route (st : AppState) (reg : String) (now : Int)
    (ves : HttpResp) (token : Option String) (mot : Option HttpResp)
    (log_ok : Bool) : Response × AppState × Bool :=
  let is_cached := check_cache_exists st.vehicle
  let gc := if is_cached then get_cached_vehicle_data st.vehicle now else (none, st.vehicle)
  match gc.1 with
  | some cached_data =>
      -- cache-hit path: log (is_cached=True), re-read the counter, respond
      let st1 : AppState := { vehicle := gc.2, logs := st.logs }
      if log_ok then
        let st2 := log_request st1 reg 0 true now
        let request_count := get_request_count st2.vehicle
        (.success { normalize_record cached_data with request_count := some request_count },
         st2, false)
      else (frameworkResp, st1, false)
  | none =>
      match get_vehicle_data ves token mot with
      | .ok fresh_data =>
          let st1 : AppState :=
            { vehicle := some (cache_vehicle_data st.vehicle reg fresh_data now)
              logs := st.logs }
          if log_ok then
            let st2 := log_request st1 reg 0 is_cached now
            let request_count := get_request_count st2.vehicle
            (.success { normalize_fresh fresh_data with request_count := some request_count },
             st2, true)
          else (frameworkResp, st1, true)
      | .apiError message status_code =>
          -- except VehicleAPIError: log, then surface the upstream status
          if log_ok then
            (.error message status_code, log_request st reg 0 is_cached now, true)
          else (frameworkResp, st, true)
      | .exc =>
          -- except Exception: log, then a generic 500
          if log_ok then
            (.error "An unexpected error occurred" 500, log_request st reg 0 is_cached now, true)
          else (frameworkResp, st, true)

/-- The `@rate_limit` decorator wrapped around `vehicle_route`: consult the
(single-client) limiter first; a rejected request returns 429 immediately —
in particular it never reaches `log_request`. -/
def rate_limit_route (rl : RateLimiter) (st : AppState) (reg : String) (now : Int)
    (ves : HttpResp) (token : Option String) (mot : Option HttpResp)
    (log_ok : Bool) : Response × AppState × RateLimiter × Bool :=
  let checked := is_rate_limited rl now
  if checked.1 then
    (.error "Rate limit exceeded. Please try again later." 429, st, checked.2, false)
  else
    let r := vehicle_route st reg now ves token mot log_ok
    (r.1, r.2.1, checked.2, r.2.2)

/-! ### Helper lemmas: options, dictionaries, sorting -/

theorem oOr_some {α : Type} (x : α) (b : Option α) : oOr (some x) b = some x := rfl

theorem oOr_none {α : Type} (b : Option α) : oOr none b = b := rfl

theorem oOr_none_right {α : Type} (a : Option α) : oOr a none = a := by
  cases a <;> rfl

theorem mem_keys_iff_any {α : Type} (d : List (Nat × α)) (k : Nat) :
    d.any (fun p => p.1 = k) = true ↔ k ∈ keys d := by
  induction d with
  | nil => simp [keys]
  | cons p d ih =>
      simp only [List.any_cons, Bool.or_eq_true, decide_eq_true_eq, keys, List.map_cons,
        List.mem_cons, ih, keys]
      constructor
      · rintro (h | h)
        · exact Or.inl h.symm
        · exact Or.inr h
      · rintro (h | h)
        · exact Or.inl h.symm
        · exact Or.inr h

theorem keys_map_update {α : Type} (d : List (Nat × α)) (k : Nat) (v : α) :
    keys (d.map (fun p => if p.1 = k then (k, v) else p)) = keys d := by
  induction d with
  | nil => rfl
  | cons p d ih =>
      simp only [keys, List.map_cons, List.map_map] at ih ⊢
      by_cases h : p.1 = k
      · simp [h, ih]
      · simp [h, ih]

theorem keys_dictIns_of_mem {α : Type} (d : List (Nat × α)) (k : Nat) (v : α)
    (h : k ∈ keys d) : keys (dictIns d k v) = keys d := by
  unfold dictIns
  rw [if_pos ((mem_keys_iff_any d k).mpr h)]
  exact keys_map_update d k v

theorem keys_dictIns_of_not_mem {α : Type} (d : List (Nat × α)) (k : Nat) (v : α)
    (h : k ∉ keys d) : keys (dictIns d k v) = keys d ++ [k] := by
  unfold dictIns
  rw [if_neg]
  · simp [keys]
  · intro hc
    exact h ((mem_keys_iff_any d k).mp hc)

theorem nodup_keys_dictIns {α : Type} (d : List (Nat × α)) (k : Nat) (v : α)
    (h : (keys d).Nodup) : (keys (dictIns d k v)).Nodup := by
  by_cases hk : k ∈ keys d
  · rw [keys_dictIns_of_mem d k v hk]; exact h
  · rw [keys_dictIns_of_not_mem d k v hk]
    apply List.Nodup.append h (List.nodup_singleton k)
    intro a ha hb
    simp only [List.mem_singleton] at hb
    exact hk (hb ▸ ha)

theorem dlookup_nil {α : Type} (k : Nat) : dlookup k ([] : List (Nat × α)) = none := rfl

theorem dlookup_cons {α : Type} (k : Nat) (p : Nat × α) (d : List (Nat × α)) :
    dlookup k (p :: d) = if p.1 = k then some p.2 else dlookup k d := rfl

theorem dlookup_map_update_ne {α : Type} (d : List (Nat × α)) (k k' : Nat) (v : α)
    (h : k' ≠ k) :
    dlookup k' (d.map (fun p => if p.1 = k then (k, v) else p)) = dlookup k' d := by
  induction d with
  | nil => rfl
  | cons p d ih =>
      by_cases hp : p.1 = k
      · rw [List.map_cons, if_pos hp, dlookup_cons, dlookup_cons,
          if_neg (fun hc : k = k' => h hc.symm),
          if_neg (fun hc : p.1 = k' => h (hp ▸ hc).symm), ih]
      · rw [List.map_cons, if_neg hp, dlookup_cons, dlookup_cons, ih]

theorem dlookup_map_update_eq {α : Type} (d : List (Nat × α)) (k : Nat) (v : α)
    (h : k ∈ keys d) :
    dlookup k (d.map (fun p => if p.1 = k then (k, v) else p)) = some v := by
  induction d with
  | nil => simp [keys] at h
  | cons p d ih =>
      by_cases hp : p.1 = k
      · rw [List.map_cons, if_pos hp, dlookup_cons, if_pos rfl]
      · simp only [keys, List.map_cons, List.mem_cons] at h
        rcases h with h | h
        · exact absurd h.symm hp
        · rw [List.map_cons, if_neg hp, dlookup_cons, if_neg hp]
          exact ih h

theorem dlookup_append_single_eq {α : Type} (d : List (Nat × α)) (k : Nat) (v : α)
    (h : k ∉ keys d) : dlookup k (d ++ [(k, v)]) = some v := by
  induction d with
  | nil => simp [dlookup_cons]
  | cons p d ih =>
      simp only [keys, List.map_cons, List.mem_cons, not_or] at h
      rw [List.cons_append, dlookup_cons, if_neg (fun hc => h.1 hc.symm)]
      exact ih (by simpa [keys] using h.2)

theorem dlookup_append_single_ne {α : Type} (d : List (Nat × α)) (k k' : Nat) (v : α)
    (h : k' ≠ k) : dlookup k' (d ++ [(k, v)]) = dlookup k' d := by
  induction d with
  | nil => simp [dlookup_cons, dlookup_nil, if_neg (fun hc : k = k' => h hc.symm)]
  | cons p d ih =>
      rw [List.cons_append, dlookup_cons, dlookup_cons, ih]

theorem dlookup_dictIns {α : Type} (d : List (Nat × α)) (k k' : Nat) (v : α) :
    dlookup k' (dictIns d k v) = if k' = k then some v else dlookup k' d := by
  by_cases hm : k ∈ keys d
  · unfold dictIns
    rw [if_pos ((mem_keys_iff_any d k).mpr hm)]
    by_cases h : k' = k
    · subst h; rw [if_pos rfl]; exact dlookup_map_update_eq d k' v hm
    · rw [if_neg h]; exact dlookup_map_update_ne d k k' v h
  · unfold dictIns
    rw [if_neg (fun hc => hm ((mem_keys_iff_any d k).mp hc))]
    by_cases h : k' = k
    · subst h; rw [if_pos rfl]; exact dlookup_append_single_eq d k' v hm
    · rw [if_neg h]; exact dlookup_append_single_ne d k k' v h

theorem mem_keys_iff_dlookup_isSome {α : Type} (d : List (Nat × α)) (k : Nat) :
    k ∈ keys d ↔ (dlookup k d).isSome := by
  induction d with
  | nil => simp [keys, dlookup_nil]
  | cons p d ih =>
      rw [dlookup_cons]
      by_cases h : p.1 = k
      · simp [keys, h]
      · rw [if_neg h, ← ih]
        simp only [keys, List.map_cons, List.mem_cons]
        constructor
        · rintro (hc | hc)
          · exact absurd hc.symm h
          · exact hc
        · exact Or.inr

theorem mem_iff_dlookup {α : Type} (d : List (Nat × α)) (k : Nat) (v : α)
    (hnd : (keys d).Nodup) : (k, v) ∈ d ↔ dlookup k d = some v := by
  induction d with
  | nil => simp [dlookup_nil]
  | cons p d ih =>
      simp only [keys, List.map_cons, List.nodup_cons] at hnd
      rw [List.mem_cons, dlookup_cons]
      by_cases h : p.1 = k
      · rw [if_pos h]
        constructor
        · rintro (hc | hc)
          · rw [← hc]
          · exfalso
            apply hnd.1
            rw [h]
            exact List.mem_map.mpr ⟨(k, v), hc, rfl⟩
        · intro hc
          left
          have hv : p.2 = v := by injection hc
          have : p = (p.1, p.2) := rfl
          rw [this, h, hv]
      · rw [if_neg h]
        rw [ih (by simpa [keys] using hnd.2)]
        constructor
        · rintro (hc | hc)
          · exfalso; apply h; rw [← hc]
          · exact hc
        · exact Or.inr

theorem dictIns_self {α : Type} (d : List (Nat × α)) (k : Nat) (v : α)
    (hnd : (keys d).Nodup) (h : dlookup k d = some v) : dictIns d k v = d := by
  have hm : k ∈ keys d := (mem_keys_iff_dlookup_isSome d k).mpr (by rw [h]; rfl)
  unfold dictIns
  rw [if_pos ((mem_keys_iff_any d k).mpr hm)]
  have : ∀ p ∈ d, (if p.1 = k then (k, v) else p) = p := by
    intro p hp
    by_cases hpk : p.1 = k
    · rw [if_pos hpk]
      have hpd : (p.1, p.2) ∈ d := hp
      have := (mem_iff_dlookup d p.1 p.2 hnd).mp hpd
      rw [hpk, h] at this
      have hv : v = p.2 := by injection this
      have hp2 : p = (p.1, p.2) := rfl
      rw [hp2, hpk, hv]
    · rw [if_neg hpk]
  calc d.map (fun p => if p.1 = k then (k, v) else p) = d.map id := List.map_congr_left this
    _ = d := List.map_id d

theorem insertDesc_perm {α : Type} (p : Nat × α) (l : List (Nat × α)) :
    List.Perm (insertDesc p l) (p :: l) := by
  induction l with
  | nil => exact List.Perm.refl _
  | cons q l ih =>
      unfold insertDesc
      by_cases h : p.1 ≤ q.1
      · rw [if_pos h]
        exact (ih.cons q).trans (List.Perm.swap p q l)
      · rw [if_neg h]

theorem sortDesc_perm {α : Type} (l : List (Nat × α)) : List.Perm (sortDesc l) l := by
  induction l with
  | nil => exact List.Perm.refl _
  | cons p l ih => exact (insertDesc_perm p (sortDesc l)).trans (ih.cons p)

theorem mem_insertDesc {α : Type} (p q : Nat × α) (l : List (Nat × α)) :
    q ∈ insertDesc p l ↔ q = p ∨ q ∈ l := by
  rw [(insertDesc_perm p l).mem_iff, List.mem_cons]

theorem insertDesc_sorted {α : Type} (p : Nat × α) (l : List (Nat × α))
    (h : l.Pairwise (fun a b => b.1 ≤ a.1)) :
    (insertDesc p l).Pairwise (fun a b => b.1 ≤ a.1) := by
  induction l with
  | nil => exact List.pairwise_singleton _ p
  | cons q l ih =>
      rw [List.pairwise_cons] at h
      unfold insertDesc
      by_cases hpq : p.1 ≤ q.1
      · rw [if_pos hpq]
        rw [List.pairwise_cons]
        constructor
        · intro r hr
          rcases (mem_insertDesc p r l).mp hr with hc | hc
          · rw [hc]; exact hpq
          · exact h.1 r hc
        · exact ih h.2
      · rw [if_neg hpq]
        rw [List.pairwise_cons]
        constructor
        · intro r hr
          rcases List.mem_cons.mp hr with hc | hc
          · rw [hc]; exact le_of_lt (lt_of_not_le hpq)
          · exact le_trans (h.1 r hc) (le_of_lt (lt_of_not_le hpq))
        · rw [List.pairwise_cons]
          exact h

theorem sortDesc_sorted {α : Type} (l : List (Nat × α)) :
    (sortDesc l).Pairwise (fun a b => b.1 ≤ a.1) := by
  induction l with
  | nil => exact List.Pairwise.nil
  | cons p l ih => exact insertDesc_sorted p (sortDesc l) ih

theorem sortDesc_eq_of_strict_sorted {α : Type} (l : List (Nat × α))
    (h : l.Pairwise (fun a b => b.1 < a.1)) : sortDesc l = l := by
  induction l with
  | nil => rfl
  | cons p l ih =>
      rw [List.pairwise_cons] at h
      show insertDesc p (sortDesc l) = p :: l
      rw [ih h.2]
      cases l with
      | nil => rfl
      | cons q l =>
          unfold insertDesc
          rw [if_neg (not_le_of_lt (h.1 q (List.mem_cons_self q l)))]

theorem strict_of_sorted_nodup_keys {α : Type} (l : List (Nat × α))
    (hs : l.Pairwise (fun a b => b.1 ≤ a.1)) (hnd : (keys l).Nodup) :
    l.Pairwise (fun a b => b.1 < a.1) := by
  have hne : l.Pairwise (fun a b => a.1 ≠ b.1) := by
    have hp : (l.map (fun p => p.1)).Pairwise (fun a b => a ≠ b) := hnd
    exact List.pairwise_map.mp hp
  exact (hs.and hne).imp (fun h => lt_of_le_of_ne h.1 (Ne.symm h.2))

theorem lastWith_nil (k : Nat) : lastWith k [] = none := rfl

theorem lastWith_cons (k : Nat) (t : MotTest) (ts : List MotTest) :
    lastWith k (t :: ts) =
      oOr (lastWith k ts) (if t.completedDate = k then some t else none) := rfl

theorem lastWith_mem {k : Nat} {ts : List MotTest} {t : MotTest}
    (h : lastWith k ts = some t) : t ∈ ts ∧ t.completedDate = k := by
  induction ts with
  | nil => exact absurd h (by rw [lastWith_nil]; exact Option.noConfusion)
  | cons u ts ih =>
      rw [lastWith_cons] at h
      cases hl : lastWith k ts with
      | some w =>
          rw [hl, oOr_some] at h
          have hw : w = t := by injection h
          rw [hw] at hl
          exact ⟨List.mem_cons_of_mem u (ih hl).1, (ih hl).2⟩
      | none =>
          rw [hl, oOr_none] at h
          by_cases hu : u.completedDate = k
          · rw [if_pos hu] at h
            have : u = t := by injection h
            rw [← this]
            exact ⟨List.mem_cons_self u ts, hu⟩
          · rw [if_neg hu] at h
            exact absurd h Option.noConfusion

theorem lastWith_isSome {k : Nat} {ts : List MotTest}
    (h : ∃ t ∈ ts, t.completedDate = k) : (lastWith k ts).isSome := by
  induction ts with
  | nil => simp at h
  | cons u ts ih =>
      rw [lastWith_cons]
      rcases h with ⟨t, ht, hk⟩
      rcases List.mem_cons.mp ht with hc | hc
      · cases hl : lastWith k ts with
        | some w => rw [oOr_some]; rfl
        | none => rw [oOr_none, ← hc, if_pos hk]; rfl
      · have := ih ⟨t, hc, hk⟩
        cases hl : lastWith k ts with
        | some w => rw [oOr_some]; rfl
        | none => rw [hl] at this; exact absurd this (by simp)

theorem buildDict_nil (d : List (Nat × MotTest)) : buildDict [] d = d := rfl

theorem buildDict_cons (t : MotTest) (ts : List MotTest) (d : List (Nat × MotTest)) :
    buildDict (t :: ts) d = buildDict ts (dictIns d t.completedDate t) := rfl

theorem nodup_keys_buildDict (ts : List MotTest) (d : List (Nat × MotTest))
    (h : (keys d).Nodup) : (keys (buildDict ts d)).Nodup := by
  induction ts generalizing d with
  | nil => exact h
  | cons t ts ih => exact ih _ (nodup_keys_dictIns _ _ _ h)

theorem coh_dictIns (d : List (Nat × MotTest)) (t : MotTest)
    (h : ∀ p ∈ d, (p : Nat × MotTest).2.completedDate = p.1) :
    ∀ p ∈ dictIns d t.completedDate t, p.2.completedDate = p.1 := by
  intro p hp
  unfold dictIns at hp
  by_cases hc : d.any (fun p => p.1 = t.completedDate) = true
  · rw [if_pos hc] at hp
    rcases List.mem_map.mp hp with ⟨q, hq, hqe⟩
    by_cases hqk : q.1 = t.completedDate
    · rw [if_pos hqk] at hqe; rw [← hqe]
    · rw [if_neg hqk] at hqe; rw [← hqe]; exact h q hq
  · rw [if_neg hc] at hp
    rcases List.mem_append.mp hp with hq | hq
    · exact h p hq
    · rw [List.mem_singleton.mp hq]

theorem coh_buildDict (ts : List MotTest) (d : List (Nat × MotTest))
    (h : ∀ p ∈ d, (p : Nat × MotTest).2.completedDate = p.1) :
    ∀ p ∈ buildDict ts d, p.2.completedDate = p.1 := by
  induction ts generalizing d with
  | nil => exact h
  | cons t ts ih => exact ih _ (coh_dictIns d t h)

theorem dlookup_buildDict (k : Nat) (ts : List MotTest) (d : List (Nat × MotTest)) :
    dlookup k (buildDict ts d) = oOr (lastWith k ts) (dlookup k d) := by
  induction ts generalizing d with
  | nil => rw [buildDict_nil, lastWith_nil, oOr_none]
  | cons t ts ih =>
      rw [buildDict_cons, ih, lastWith_cons, dlookup_dictIns]
      cases lastWith k ts with
      | some u => rw [oOr_some, oOr_some, oOr_some]
      | none =>
          rw [oOr_none, oOr_none]
          by_cases h : t.completedDate = k
          · rw [if_pos h, if_pos h.symm, oOr_some]
          · rw [if_neg h, if_neg (fun hc => h hc.symm), oOr_none]

theorem buildDict_fresh (ts : List MotTest) (d : List (Nat × MotTest))
    (hnd : (ts.map (fun t => t.completedDate)).Nodup)
    (hdisj : ∀ t ∈ ts, t.completedDate ∉ keys d) :
    buildDict ts d = d ++ ts.map (fun t => (t.completedDate, t)) := by
  induction ts generalizing d with
  | nil => rw [buildDict_nil, List.map_nil, List.append_nil]
  | cons t ts ih =>
      rw [buildDict_cons]
      have hnotin : t.completedDate ∉ keys d := hdisj t (List.mem_cons_self t ts)
      have hins : dictIns d t.completedDate t = d ++ [(t.completedDate, t)] := by
        unfold dictIns
        rw [if_neg (fun hc => hnotin ((mem_keys_iff_any d t.completedDate).mp hc))]
      rw [List.map_cons] at hnd
      have hnd' := (List.nodup_cons.mp hnd).2
      have hhead := (List.nodup_cons.mp hnd).1
      have hdisj' : ∀ u ∈ ts, u.completedDate ∉ keys (d ++ [(t.completedDate, t)]) := by
        intro u hu hc
        have : keys (d ++ [(t.completedDate, t)]) = keys d ++ [t.completedDate] := by
          unfold keys; rw [List.map_append]; rfl
        rw [this] at hc
        rcases List.mem_append.mp hc with hc | hc
        · exact hdisj u (List.mem_cons_of_mem t hu) hc
        · apply hhead
          rw [← List.mem_singleton.mp hc]
          exact List.mem_map.mpr ⟨u, hu, rfl⟩
      rw [hins, ih (d ++ [(t.completedDate, t)]) hnd' hdisj', List.map_cons,
        List.append_assoc, List.singleton_append]

theorem buildDict_fix (ts : List MotTest) (d : List (Nat × MotTest))
    (hnd : (keys d).Nodup) (h : ∀ t ∈ ts, dlookup t.completedDate d = some t) :
    buildDict ts d = d := by
  induction ts with
  | nil => rfl
  | cons t ts ih =>
      rw [buildDict_cons, dictIns_self d t.completedDate t hnd (h t (List.mem_cons_self t ts))]
      exact ih (fun u hu => h u (List.mem_cons_of_mem t hu))

theorem buildDict_overlay (ts : List MotTest) (d : List (Nat × MotTest))
    (h : ∀ t ∈ ts, t.completedDate ∈ keys d) :
    buildDict ts d =
      d.map (fun p => match lastWith p.1 ts with | some u => (p.1, u) | none => p) := by
  induction ts generalizing d with
  | nil =>
      rw [buildDict_nil]
      have he : ∀ p ∈ d,
          (match lastWith p.1 [] with | some u => ((p : Nat × MotTest).1, u) | none => p) = p :=
        fun p _ => rfl
      rw [List.map_congr_left he]
      simp
  | cons t ts ih =>
      rw [buildDict_cons]
      have hmem : t.completedDate ∈ keys d := h t (List.mem_cons_self t ts)
      have hins : dictIns d t.completedDate t =
          d.map (fun p => if p.1 = t.completedDate then (t.completedDate, t) else p) := by
        unfold dictIns
        rw [if_pos ((mem_keys_iff_any d t.completedDate).mpr hmem)]
      have h' : ∀ u ∈ ts, u.completedDate ∈
          keys (d.map (fun p => if p.1 = t.completedDate then (t.completedDate, t) else p)) := by
        intro u hu
        rw [keys_map_update]
        exact h u (List.mem_cons_of_mem t hu)
      rw [hins, ih _ h', List.map_map]
      apply List.map_congr_left
      intro p _
      show (match lastWith (if p.1 = t.completedDate then (t.completedDate, t) else p).1 ts with
            | some u => ((if p.1 = t.completedDate then (t.completedDate, t) else p).1, u)
            | none => (if p.1 = t.completedDate then (t.completedDate, t) else p)) =
          (match lastWith p.1 (t :: ts) with | some u => (p.1, u) | none => p)
      by_cases hpk : p.1 = t.completedDate
      · rw [if_pos hpk, lastWith_cons, if_pos hpk.symm]
        cases hl : lastWith p.1 ts with
        | some u => rw [hpk] at hl; rw [hl, oOr_some, hpk]
        | none => rw [hpk] at hl; rw [hl, oOr_none, hpk]
      · rw [if_neg hpk, lastWith_cons, if_neg (fun hc => hpk hc.symm), oOr_none_right]

/-! ### The merged dictionary of `merge_mot_data` -/

theorem oOr_isSome_left {α : Type} {a : Option α} (b : Option α) (h : a.isSome) :
    (oOr a b).isSome := by
  cases a with
  | some x => rfl
  | none => exact absurd h (by simp)

theorem nodup_keys_merged_dict (E I : List MotTest) :
    (keys (buildDict I (buildDict E []))).Nodup :=
  nodup_keys_buildDict I _ (nodup_keys_buildDict E [] List.nodup_nil)

theorem coh_merged_dict (E I : List MotTest) :
    ∀ p ∈ buildDict I (buildDict E []), (p : Nat × MotTest).2.completedDate = p.1 :=
  coh_buildDict I _ (coh_buildDict E [] (fun p hp => absurd hp (List.not_mem_nil p)))

theorem dlookup_merged_dict (k : Nat) (E I : List MotTest) :
    dlookup k (buildDict I (buildDict E [])) = oOr (lastWith k I) (lastWith k E) := by
  rw [dlookup_buildDict, dlookup_buildDict, dlookup_nil, oOr_none_right]

theorem nodup_keys_sortDesc_merged (E I : List MotTest) :
    (keys (sortDesc (buildDict I (buildDict E [])))).Nodup := by
  have hk := (sortDesc_perm (buildDict I (buildDict E []))).map
    (fun p => (p : Nat × MotTest).1)
  exact (hk.nodup_iff).mpr (nodup_keys_merged_dict E I)

theorem coh_sortDesc_merged (E I : List MotTest) :
    ∀ p ∈ sortDesc (buildDict I (buildDict E [])),
      (p : Nat × MotTest).2.completedDate = p.1 :=
  fun p hp =>
    coh_merged_dict E I p ((sortDesc_perm (buildDict I (buildDict E []))).mem_iff.mp hp)

theorem mem_merge_iff (E I : List MotTest) (t : MotTest) :
    t ∈ merge_mot_data E I ↔
      dlookup t.completedDate (buildDict I (buildDict E [])) = some t := by
  constructor
  · intro h
    rcases List.mem_map.mp h with ⟨p, hp, he⟩
    have hpD : p ∈ buildDict I (buildDict E []) :=
      (sortDesc_perm (buildDict I (buildDict E []))).mem_iff.mp hp
    have hcoh := coh_merged_dict E I p hpD
    have hpe : p = (t.completedDate, t) := by
      have h1 : p = (p.1, p.2) := rfl
      rw [h1, ← hcoh, he]
    rw [hpe] at hpD
    exact (mem_iff_dlookup _ _ _ (nodup_keys_merged_dict E I)).mp hpD
  · intro h
    have hm : (t.completedDate, t) ∈ buildDict I (buildDict E []) :=
      (mem_iff_dlookup _ _ _ (nodup_keys_merged_dict E I)).mpr h
    have hS : (t.completedDate, t) ∈ sortDesc (buildDict I (buildDict E [])) :=
      (sortDesc_perm (buildDict I (buildDict E []))).mem_iff.mpr hm
    exact List.mem_map.mpr ⟨(t.completedDate, t), hS, rfl⟩

theorem merge_strict_sorted (E I : List MotTest) :
    (merge_mot_data E I).Pairwise (fun a b => b.completedDate < a.completedDate) := by
  have hstrict : (sortDesc (buildDict I (buildDict E []))).Pairwise
      (fun a b => b.1 < a.1) :=
    strict_of_sorted_nodup_keys _ (sortDesc_sorted _) (nodup_keys_sortDesc_merged E I)
  show ((sortDesc (buildDict I (buildDict E []))).map (fun p => p.2)).Pairwise _
  rw [List.pairwise_map]
  refine List.Pairwise.imp_of_mem ?_ hstrict
  intro a b ha hb hr
  show b.2.completedDate < a.2.completedDate
  rw [coh_sortDesc_merged E I a ha, coh_sortDesc_merged E I b hb]
  exact hr

theorem merge_dates_nodup (E I : List MotTest) :
    ((merge_mot_data E I).map (fun t => t.completedDate)).Nodup := by
  have h := merge_strict_sorted E I
  have : (merge_mot_data E I).Pairwise
      (fun a b => a.completedDate ≠ b.completedDate) :=
    h.imp (fun hc => ne_of_gt hc)
  exact List.pairwise_map.mpr this

theorem map_snd_pair_of_coh (S : List (Nat × MotTest))
    (hcoh : ∀ p ∈ S, (p : Nat × MotTest).2.completedDate = p.1) :
    (S.map (fun p => p.2)).map (fun t => (t.completedDate, t)) = S := by
  rw [List.map_map]
  have h2 : ∀ p ∈ S,
      ((fun t => (t.completedDate, t)) ∘ fun p => (p : Nat × MotTest).2) p = id p := by
    intro p hp
    show (p.2.completedDate, p.2) = p
    rw [hcoh p hp]
  rw [List.map_congr_left h2, List.map_id]

theorem map_dates_eq_keys_of_coh (S : List (Nat × MotTest))
    (hcoh : ∀ p ∈ S, (p : Nat × MotTest).2.completedDate = p.1) :
    (S.map (fun p => p.2)).map (fun t => t.completedDate) = keys S := by
  rw [List.map_map]
  unfold keys
  apply List.map_congr_left
  intro p hp
  exact hcoh p hp

theorem merge_nil_perm (X : List MotTest)
    (hnd : (X.map (fun t => t.completedDate)).Nodup) :
    List.Perm (merge_mot_data X []) X := by
  have hfresh : buildDict X [] = [] ++ X.map (fun t => (t.completedDate, t)) :=
    buildDict_fresh X [] hnd (fun t _ hc => absurd hc (by simp [keys]))
  rw [List.nil_append] at hfresh
  show List.Perm ((sortDesc (buildDict [] (buildDict X []))).map (fun p => p.2)) X
  rw [buildDict_nil, hfresh]
  have hperm := (sortDesc_perm (X.map (fun t => (t.completedDate, t)))).map
    (fun p => (p : Nat × MotTest).2)
  have hmm : (X.map (fun t => (t.completedDate, t))).map (fun p => (p : Nat × MotTest).2)
      = X := by
    rw [List.map_map]
    have : ∀ t ∈ X, ((fun p => (p : Nat × MotTest).2) ∘ fun t => (t.completedDate, t)) t
        = id t := fun t _ => rfl
    rw [List.map_congr_left this, List.map_id]
  rw [hmm] at hperm
  exact hperm

theorem merge_self_perm (X : List MotTest)
    (hnd : (X.map (fun t => t.completedDate)).Nodup) :
    List.Perm (merge_mot_data X X) X := by
  have hfresh : buildDict X [] = [] ++ X.map (fun t => (t.completedDate, t)) :=
    buildDict_fresh X [] hnd (fun t _ hc => absurd hc (by simp [keys]))
  rw [List.nil_append] at hfresh
  have hkeys : keys (X.map (fun t => (t.completedDate, t)))
      = X.map (fun t => t.completedDate) := by
    unfold keys
    rw [List.map_map]
    rfl
  have hndk : (keys (X.map (fun t => (t.completedDate, t)))).Nodup := by
    rw [hkeys]; exact hnd
  have hfix : buildDict X (X.map (fun t => (t.completedDate, t)))
      = X.map (fun t => (t.completedDate, t)) := by
    apply buildDict_fix _ _ hndk
    intro t ht
    apply (mem_iff_dlookup _ _ _ hndk).mp
    exact List.mem_map.mpr ⟨t, ht, rfl⟩
  show List.Perm ((sortDesc (buildDict X (buildDict X []))).map (fun p => p.2)) X
  rw [hfresh, hfix]
  have hperm := (sortDesc_perm (X.map (fun t => (t.completedDate, t)))).map
    (fun p => (p : Nat × MotTest).2)
  have hmm : (X.map (fun t => (t.completedDate, t))).map (fun p => (p : Nat × MotTest).2)
      = X := by
    rw [List.map_map]
    have : ∀ t ∈ X, ((fun p => (p : Nat × MotTest).2) ∘ fun t => (t.completedDate, t)) t
        = id t := fun t _ => rfl
    rw [List.map_congr_left this, List.map_id]
  rw [hmm] at hperm
  exact hperm

theorem merge_idem (E I : List MotTest) :
    merge_mot_data (merge_mot_data E I) I = merge_mot_data E I := by
  have hndS := nodup_keys_sortDesc_merged E I
  have hcohS := coh_sortDesc_merged E I
  -- step A: re-keying the merged output rebuilds the sorted dictionary
  have hA : buildDict ((sortDesc (buildDict I (buildDict E []))).map (fun p => p.2)) []
      = sortDesc (buildDict I (buildDict E [])) := by
    have hndm : (((sortDesc (buildDict I (buildDict E []))).map (fun p => p.2)).map
        (fun t => t.completedDate)).Nodup := by
      rw [map_dates_eq_keys_of_coh _ hcohS]
      exact hndS
    have h := buildDict_fresh ((sortDesc (buildDict I (buildDict E []))).map (fun p => p.2))
      [] hndm (fun t _ hc => absurd hc (by simp [keys]))
    rw [List.nil_append] at h
    rw [h, map_snd_pair_of_coh _ hcohS]
  -- step B: overlaying the incoming records again leaves it unchanged
  have hB : buildDict I (sortDesc (buildDict I (buildDict E [])))
      = sortDesc (buildDict I (buildDict E [])) := by
    have hkmem : ∀ k, k ∈ keys (sortDesc (buildDict I (buildDict E [])))
        ↔ k ∈ keys (buildDict I (buildDict E [])) :=
      fun k => ((sortDesc_perm (buildDict I (buildDict E []))).map
        (fun p => (p : Nat × MotTest).1)).mem_iff
    have hdom : ∀ t ∈ I,
        t.completedDate ∈ keys (sortDesc (buildDict I (buildDict E []))) := by
      intro t ht
      rw [hkmem, mem_keys_iff_dlookup_isSome, dlookup_merged_dict]
      exact oOr_isSome_left _ (lastWith_isSome ⟨t, ht, rfl⟩)
    rw [buildDict_overlay I _ hdom]
    have hid : ∀ p ∈ sortDesc (buildDict I (buildDict E [])),
        (match lastWith (p : Nat × MotTest).1 I with
         | some u => (p.1, u)
         | none => p) = id p := by
      intro p hp
      cases hl : lastWith p.1 I with
      | none => rfl
      | some u =>
          show (p.1, u) = p
          have hpD : p ∈ buildDict I (buildDict E []) :=
            (sortDesc_perm (buildDict I (buildDict E []))).mem_iff.mp hp
          have hlook : dlookup p.1 (buildDict I (buildDict E [])) = some p.2 :=
            (mem_iff_dlookup _ _ _ (nodup_keys_merged_dict E I)).mp hpD
          rw [dlookup_merged_dict, hl, oOr_some] at hlook
          have hu : u = p.2 := by injection hlook
          rw [hu]
    rw [List.map_congr_left hid, List.map_id]
  -- step C: sorting the already strictly sorted dictionary is the identity
  have hC : sortDesc (sortDesc (buildDict I (buildDict E [])))
      = sortDesc (buildDict I (buildDict E [])) :=
    sortDesc_eq_of_strict_sorted _
      (strict_of_sorted_nodup_keys _ (sortDesc_sorted _) hndS)
  show (sortDesc (buildDict I (buildDict
      ((sortDesc (buildDict I (buildDict E []))).map (fun p => p.2)) []))).map
      (fun p => p.2)
    = (sortDesc (buildDict I (buildDict E []))).map (fun p => p.2)
  rw [hA, hB, hC]

/-! ### Raw merge: `KeyError` totality -/

theorem buildDictRaw_cons (t : RawTest) (ts : List RawTest) (d : Option (List (Nat × RawTest))) :
    buildDictRaw (t :: ts) d =
      buildDictRaw ts
        (match d, t.completedDate with
         | some l, some k => some (dictIns l k t)
         | _, _ => none) := rfl

theorem buildDictRaw_none (ts : List RawTest) : buildDictRaw ts none = none := by
  induction ts with
  | nil => rfl
  | cons t ts ih =>
      rw [buildDictRaw_cons]
      cases t.completedDate with
      | none => exact ih
      | some k => exact ih

theorem buildDictRaw_isSome (ts : List RawTest) :
    ∀ d : List (Nat × RawTest),
      ((buildDictRaw ts (some d)).isSome ↔ ∀ t ∈ ts, t.completedDate.isSome) := by
  induction ts with
  | nil => intro d; simp [buildDictRaw]
  | cons t ts ih =>
      intro d
      rw [buildDictRaw_cons]
      cases ht : t.completedDate with
      | none =>
          rw [buildDictRaw_none]
          simp only [Option.isSome_none, Bool.false_eq_true, false_iff]
          intro hc
          have := hc t (List.mem_cons_self t ts)
          rw [ht] at this
          exact absurd this (by simp)
      | some k =>
          rw [ih (dictIns d k t)]
          constructor
          · intro h u hu
            rcases List.mem_cons.mp hu with hc | hc
            · rw [hc, ht]; rfl
            · exact h u hc
          · intro h u hu
            exact h u (List.mem_cons_of_mem t hu)

theorem merge_mot_data_raw_eq_map (ex inc : List RawTest) :
    merge_mot_data_raw ex inc =
      (buildDictRaw inc (buildDictRaw ex (some []))).map
        (fun d => (sortDesc d).map (fun p => p.2)) := by
  unfold merge_mot_data_raw
  cases buildDictRaw inc (buildDictRaw ex (some [])) with
  | none => rfl
  | some d => rfl

theorem merge_mot_data_raw_isSome (ex inc : List RawTest) :
    (merge_mot_data_raw ex inc).isSome ↔
      (∀ t ∈ ex, t.completedDate.isSome) ∧ (∀ t ∈ inc, t.completedDate.isSome) := by
  rw [merge_mot_data_raw_eq_map]
  cases h1 : buildDictRaw ex (some ([] : List (Nat × RawTest))) with
  | none =>
      rw [buildDictRaw_none]
      simp only [Option.map_none', Option.isSome_none, Bool.false_eq_true, false_iff]
      intro hc
      have := (buildDictRaw_isSome ex []).mpr hc.1
      rw [h1] at this
      exact absurd this (by simp)
  | some d =>
      have hex : ∀ t ∈ ex, t.completedDate.isSome :=
        (buildDictRaw_isSome ex []).mp (by rw [h1]; rfl)
      cases h2 : buildDictRaw inc (some d) with
      | none =>
          simp only [Option.map_none', Option.isSome_none, Bool.false_eq_true, false_iff]
          intro hc
          have := (buildDictRaw_isSome inc d).mpr hc.2
          rw [h2] at this
          exact absurd this (by simp)
      | some d2 =>
          simp only [Option.map_some', Option.isSome_some, true_iff]
          exact ⟨hex, (buildDictRaw_isSome inc d).mp (by rw [h2]; rfl)⟩

theorem cache_vehicle_data_raw_isSome (v : VehicleCacheG (List RawTest)) (reg : String)
    (data : FreshDataG RawTest) (now : Int) :
    (cache_vehicle_data_raw (some v) reg data now).isSome ↔
      (merge_mot_data_raw v.mot_data (data.motTests.getD [])).isSome := by
  cases h : merge_mot_data_raw v.mot_data (data.motTests.getD []) with
  | none => simp [cache_vehicle_data_raw, h]
  | some merged => simp [cache_vehicle_data_raw, h]

/-! ### Claim theorems -/

/-- C3: for all input sequences `existing` and `incoming`,
`merge_mot_data existing incoming` is sorted strictly descending by
`completedDate`, contains at most one record per `completedDate`, and for
every date present in both inputs the output contains an incoming record
carrying that date. -/
theorem merge_sorted_dedup_incoming_wins (existing incoming : List MotTest) :
    (merge_mot_data existing incoming).Pairwise
        (fun a b => b.completedDate < a.completedDate) ∧
    ((merge_mot_data existing incoming).map (fun t => t.completedDate)).Nodup ∧
    ∀ d : Nat, (∃ t ∈ existing, t.completedDate = d) →
      (∃ t ∈ incoming, t.completedDate = d) →
      ∃ t ∈ incoming, t.completedDate = d ∧ t ∈ merge_mot_data existing incoming := by
  refine ⟨merge_strict_sorted existing incoming, merge_dates_nodup existing incoming, ?_⟩
  intro d hex hinc
  have hsome := lastWith_isSome hinc
  cases hl : lastWith d incoming with
  | none => rw [hl] at hsome; exact absurd hsome (by simp)
  | some t =>
      have hmem := lastWith_mem hl
      refine ⟨t, hmem.1, hmem.2, ?_⟩
      rw [mem_merge_iff existing incoming t, dlookup_merged_dict, hmem.2, hl, oOr_some]

/-- Witness for C3 at concrete input: date 5 occurs in both inputs and the
merged output keeps an incoming record for it. -/
theorem merge_sorted_dedup_incoming_wins_witness :
    ∃ t ∈ [MotTest.mk 5 9, MotTest.mk 4 7], t.completedDate = 5 ∧
      t ∈ merge_mot_data [MotTest.mk 5 1, MotTest.mk 3 2] [MotTest.mk 5 9, MotTest.mk 4 7] :=
  (merge_sorted_dedup_incoming_wins [MotTest.mk 5 1, MotTest.mk 3 2]
      [MotTest.mk 5 9, MotTest.mk 4 7]).2.2 5
    ⟨MotTest.mk 5 1, by decide, rfl⟩ ⟨MotTest.mk 5 9, by decide, rfl⟩

/-- C4: `merge(X, [])` and `merge(X, X)` are `X` reordered (for `X`
satisfying the data-model invariant of distinct dates), merging is
idempotent when repeated with the same incoming set, and upserting the same
fresh data twice leaves the MOT history unchanged while `request_count` and
`last_updated` still advance. -/
theorem merge_algebra_upsert_idempotent :
    (∀ X : List MotTest, (X.map (fun t => t.completedDate)).Nodup →
        List.Perm (merge_mot_data X []) X ∧
        (merge_mot_data X []).Pairwise (fun a b => b.completedDate < a.completedDate)) ∧
    (∀ X : List MotTest, (X.map (fun t => t.completedDate)).Nodup →
        List.Perm (merge_mot_data X X) X) ∧
    (∀ E I : List MotTest,
        merge_mot_data (merge_mot_data E I) I = merge_mot_data E I) ∧
    (∀ (v : VehicleCache) (reg : String) (data : FreshData) (n1 n2 : Int),
        (cache_vehicle_data (some (cache_vehicle_data (some v) reg data n1))
            reg data n2).mot_data
          = (cache_vehicle_data (some v) reg data n1).mot_data ∧
        (cache_vehicle_data (some (cache_vehicle_data (some v) reg data n1))
            reg data n2).request_count
          = (cache_vehicle_data (some v) reg data n1).request_count + 1 ∧
        (cache_vehicle_data (some (cache_vehicle_data (some v) reg data n1))
            reg data n2).last_updated = n2 ∧
        (cache_vehicle_data (some v) reg data n1).last_updated = n1) := by
  refine ⟨?_, ?_, merge_idem, ?_⟩
  · exact fun X h => ⟨merge_nil_perm X h, merge_strict_sorted X []⟩
  · exact fun X h => merge_self_perm X h
  · intro v reg data n1 n2
    refine ⟨?_, rfl, rfl, rfl⟩
    show merge_mot_data (merge_mot_data v.mot_data (data.motTests.getD []))
        (data.motTests.getD []) = merge_mot_data v.mot_data (data.motTests.getD [])
    exact merge_idem _ _

/-- Witness for C4 at concrete inputs. -/
theorem merge_algebra_upsert_idempotent_witness :
    List.Perm (merge_mot_data [MotTest.mk 5 1, MotTest.mk 3 2] [])
        [MotTest.mk 5 1, MotTest.mk 3 2] ∧
    merge_mot_data (merge_mot_data [MotTest.mk 5 1] [MotTest.mk 4 2]) [MotTest.mk 4 2]
      = merge_mot_data [MotTest.mk 5 1] [MotTest.mk 4 2] :=
  ⟨(merge_algebra_upsert_idempotent.1 [MotTest.mk 5 1, MotTest.mk 3 2] (by decide)).1,
   merge_algebra_upsert_idempotent.2.2.1 [MotTest.mk 5 1] [MotTest.mk 4 2]⟩

/-- C10: the raw merge succeeds exactly when every record of both inputs
carries a `completedDate`; a record lacking it makes the merge (and the
upsert's update branch invoking it) fail with the lookup error instead of
returning a merged sequence. -/
theorem merge_requires_completed_date :
    (∀ existing incoming : List RawTest,
        ((merge_mot_data_raw existing incoming).isSome ↔
          (∀ t ∈ existing, t.completedDate.isSome) ∧
          (∀ t ∈ incoming, t.completedDate.isSome))) ∧
    (∀ existing incoming : List RawTest, ∀ t0 ∈ incoming, t0.completedDate = none →
        merge_mot_data_raw existing incoming = none) ∧
    (∀ (v : VehicleCacheG (List RawTest)) (reg : String) (data : FreshDataG RawTest)
        (now : Int),
        ((cache_vehicle_data_raw (some v) reg data now).isSome ↔
          (merge_mot_data_raw v.mot_data (data.motTests.getD [])).isSome)) := by
  refine ⟨merge_mot_data_raw_isSome, ?_, cache_vehicle_data_raw_isSome⟩
  intro ex inc t0 ht0 hnone
  cases h : merge_mot_data_raw ex inc with
  | none => rfl
  | some d =>
      have hs : (merge_mot_data_raw ex inc).isSome := by rw [h]; rfl
      have h2 := ((merge_mot_data_raw_isSome ex inc).mp hs).2 t0 ht0
      rw [hnone] at h2
      exact absurd h2 (by simp)

/-- Witness for C10 at concrete input: a date-less incoming record fails the
merge, a dated one succeeds. -/
theorem merge_requires_completed_date_witness :
    merge_mot_data_raw [RawTest.mk (some 5) 1] [RawTest.mk none 2] = none ∧
    (merge_mot_data_raw [RawTest.mk (some 5) 1] [RawTest.mk (some 4) 2]).isSome :=
  ⟨merge_requires_completed_date.2.1 [RawTest.mk (some 5) 1] [RawTest.mk none 2]
      (RawTest.mk none 2) (by decide) rfl,
   (merge_requires_completed_date.1 [RawTest.mk (some 5) 1]
      [RawTest.mk (some 4) 2]).mpr ⟨by decide, by decide⟩⟩


/-- C2: with a stored record, `get` returns absent exactly when the
whole-day difference between now and `last_updated` is at least one;
a stale record is returned-as-absent but not deleted; a fresh hit increments
`request_count`, touches `last_requested` and persists the updated row. -/
theorem get_cached_staleness_day_granularity (v : VehicleCache) (now : Int) :
    ((get_cached_vehicle_data (some v) now).1 = none ↔
      1 ≤ (now - v.last_updated).fdiv 86400) ∧
    (1 ≤ (now - v.last_updated).fdiv 86400 →
      get_cached_vehicle_data (some v) now = (none, some v)) ∧
    ((now - v.last_updated).fdiv 86400 < 1 →
      get_cached_vehicle_data (some v) now =
        (some { v with last_requested := now, request_count := v.request_count + 1 },
         some { v with last_requested := now, request_count := v.request_count + 1 })) := by
  by_cases h : 1 ≤ (now - v.last_updated).fdiv 86400
  · refine ⟨?_, fun _ => ?_, fun hc => absurd h (not_le_of_lt hc)⟩
    · simp [get_cached_vehicle_data, h]
    · simp [get_cached_vehicle_data, h]
  · refine ⟨?_, fun hc => absurd hc h, fun _ => ?_⟩
    · simp [get_cached_vehicle_data, h]
    · simp [get_cached_vehicle_data, h]

/-- Witness for C2: a record last updated at time 0 is absent (but kept in
the store) 24h1s later, and a fresh hit 23h59m later returns it with the
counter bumped. -/
theorem get_cached_staleness_day_granularity_witness :
    get_cached_vehicle_data
        (some { registration_number := "AB12CDE", mot_data := [], last_updated := 0,
                last_requested := 0, request_count := 7 }) 86401
      = (none,
         some { registration_number := "AB12CDE", mot_data := [], last_updated := 0,
                last_requested := 0, request_count := 7 }) ∧
    get_cached_vehicle_data
        (some { registration_number := "AB12CDE", mot_data := [], last_updated := 0,
                last_requested := 0, request_count := 7 }) 86340
      = (some { registration_number := "AB12CDE", mot_data := [], last_updated := 0,
                last_requested := 86340, request_count := 7 + 1 },
         some { registration_number := "AB12CDE", mot_data := [], last_updated := 0,
                last_requested := 86340, request_count := 7 + 1 }) :=
  ⟨(get_cached_staleness_day_granularity _ 86401).2.1 (by decide),
   (get_cached_staleness_day_granularity _ 86340).2.2 (by decide)⟩

/-- C5: each call prunes the client's timestamps to the trailing window and
records the attempt whatever the outcome; the call is admitted exactly when
the resulting count is at most `max_requests`; with `max_requests` window
entries the next call is rejected; once every entry is older than the window
a new call is admitted again (provided `max_requests ≥ 1`). -/
theorem rate_limiter_window (rl : RateLimiter) (now : Int) :
    (is_rate_limited rl now).2.requests
        = rl.requests.filter (fun t => now - t ≤ rl.window_size) ++ [now] ∧
    (is_rate_limited rl now).2.window_size = rl.window_size ∧
    (is_rate_limited rl now).2.max_requests = rl.max_requests ∧
    ((is_rate_limited rl now).1 = false ↔
      (is_rate_limited rl now).2.requests.length ≤ rl.max_requests) ∧
    (rl.requests.length = rl.max_requests →
      (∀ t ∈ rl.requests, now - t ≤ rl.window_size) →
      (is_rate_limited rl now).1 = true) ∧
    ((∀ t ∈ rl.requests, now - t > rl.window_size) → 1 ≤ rl.max_requests →
      (is_rate_limited rl now).1 = false) := by
  refine ⟨rfl, rfl, rfl, ?_, ?_, ?_⟩
  · show decide (_ > rl.max_requests) = false ↔ _
    rw [decide_eq_false_iff_not, not_lt]
    exact Iff.rfl
  · intro hlen hall
    have hf : rl.requests.filter (fun t => now - t ≤ rl.window_size) = rl.requests :=
      List.filter_eq_self.mpr (fun a ha => decide_eq_true (hall a ha))
    show decide _ = true
    rw [decide_eq_true_iff]
    show (rl.requests.filter (fun t => now - t ≤ rl.window_size) ++ [now]).length
        > rl.max_requests
    rw [hf, List.length_append, List.length_singleton, hlen]
    omega
  · intro hall hmax
    have hf : rl.requests.filter (fun t => now - t ≤ rl.window_size) = [] := by
      rw [List.filter_eq_nil_iff]
      intro a ha
      simp only [decide_eq_true_eq, not_le]
      exact hall a ha
    show decide _ = false
    rw [decide_eq_false_iff_not, not_lt]
    show (rl.requests.filter (fun t => now - t ≤ rl.window_size) ++ [now]).length
        ≤ rl.max_requests
    rw [hf]
    simpa using hmax

/-- Witness for C5: window 60s, limit 3; with three fresh admissions a call
at t=30 is rejected, a call at t=100 (all entries aged out) is admitted, and
the rejected attempt is still recorded. -/
theorem rate_limiter_window_witness :
    (is_rate_limited { window_size := 60, max_requests := 3, requests := [0, 1, 2] } 30).1
      = true ∧
    (is_rate_limited { window_size := 60, max_requests := 3, requests := [0, 1, 2] } 100).1
      = false ∧
    (is_rate_limited { window_size := 60, max_requests := 3, requests := [0, 1, 2] } 30).2.requests
      = [0, 1, 2, 30] :=
  ⟨(rate_limiter_window { window_size := 60, max_requests := 3, requests := [0, 1, 2] }
      30).2.2.2.2.1 rfl (by decide),
   (rate_limiter_window { window_size := 60, max_requests := 3, requests := [0, 1, 2] }
      100).2.2.2.2.2 (by decide) (by decide),
   by decide⟩

/-- Counterexample for C6: with a successful registration lookup but a
failed bearer-token exchange (`generate_mot_access_token` raising), the
aggregation does not return a combined record — it fails with the uncaught
exception, contradicting \"a failure of the MOT-test call for any reason
does not fail the aggregation\". -/
theorem aggregator_token_failure_counterexample :
    get_vehicle_data { status_code := 200, body := {} } none
        (some { status_code := 200, body := {} }) = ApiOutcome.exc ∧
    ∀ d : FreshData, ApiOutcome.exc ≠ ApiOutcome.ok d :=
  ⟨by decide, fun d h => ApiOutcome.noConfusion h⟩

/-- C6 (amended): after a registration-lookup success, an MOT-test call that
completes with a non-200 response is tolerated — the aggregation returns the
VES document with an empty MOT-test set substituted — and every successful
result carries a `motTests` key; but an exception from the token exchange or
from the MOT request itself propagates and fails the aggregation. -/
theorem aggregator_partial_failure (ves : HttpResp) (token : String) (mot : HttpResp)
    (hves : ves.status_code = 200) (hmot : mot.status_code ≠ 200) :
    get_vehicle_data ves (some token) (some mot)
        = ApiOutcome.ok (ensureMotTests ves.body) ∧
    (ensureMotTests ves.body).motTests = some (ves.body.motTests.getD []) ∧
    (∀ (tk : Option String) (m : Option HttpResp) (d : FreshData),
        get_vehicle_data ves tk m = ApiOutcome.ok d → d.motTests.isSome) ∧
    get_vehicle_data ves none (some mot) = ApiOutcome.exc ∧
    get_vehicle_data ves (some token) none = ApiOutcome.exc := by
  have hmerge : docMerge ves.body {} = ves.body := rfl
  refine ⟨?_, rfl, ?_, ?_, ?_⟩
  · simp only [get_vehicle_data, hves]
    rw [if_neg (by simp), if_pos hmot, hmerge]
  · intro tk m d h
    simp only [get_vehicle_data, hves] at h
    rw [if_neg (by simp)] at h
    cases tk with
    | none => exact absurd h (by simp)
    | some t2 =>
        cases m with
        | none => exact absurd h (by simp)
        | some mr =>
            have : ensureMotTests (docMerge ves.body
                (if mr.status_code ≠ 200 then {} else mr.body)) = d := by
              injection h
            rw [← this]
            rfl
  · simp [get_vehicle_data, hves]
  · simp [get_vehicle_data, hves]

/-- Witness for C6 at a concrete input: VES 200 plus MOT 500 still yields a
combined record whose `motTests` is the empty list. -/
theorem aggregator_partial_failure_witness :
    get_vehicle_data { status_code := 200, body := { make := some (some "FORD") } }
        (some "tk") (some { status_code := 500, body := {} })
      = ApiOutcome.ok (ensureMotTests { make := some (some "FORD") }) ∧
    (ensureMotTests ({ make := some (some "FORD") } : FreshData)).motTests = some [] :=
  ⟨(aggregator_partial_failure { status_code := 200, body := { make := some (some "FORD") } }
      "tk" { status_code := 500, body := {} } rfl (by decide)).1,
   rfl⟩

/-- Counterexample for C7: a fresh document carrying `make: null` (the key
present with a null value) overwrites the cached `make` instead of retaining
it, contradicting \"when the value is absent or null the old value is
retained\". -/
theorem upsert_null_overwrite_counterexample :
    (cache_vehicle_data
        (some { registration_number := "AB12CDE", make := some "FORD", mot_data := [],
                last_updated := 0, last_requested := 0, request_count := 1 })
        "AB12CDE" { make := some none } 5).make = none ∧
    ({ registration_number := "AB12CDE", make := some "FORD", mot_data := [],
       last_updated := 0, last_requested := 0,
       request_count := 1 } : VehicleCache).make = some "FORD" ∧
    (none : Option String) ≠ some "FORD" :=
  ⟨rfl, rfl, by decide⟩

/-- C7 (amended): in the update branch of upsert every scalar field obeys
`data.get(key, old)` — an absent key retains the old column value, while a
present key overwrites it even when the fresh value is `null`; MOT history is
merged with the existing list as base and the fresh tests as incoming,
`last_updated` and `last_requested` are set to now, and `request_count` is
incremented by one. -/
theorem upsert_coalesce_fields (v : VehicleCache) (reg : String) (data : FreshData)
    (now : Int) :
    ((data.make = none → (cache_vehicle_data (some v) reg data now).make = v.make) ∧
     (∀ x : Option String, data.make = some x →
        (cache_vehicle_data (some v) reg data now).make = x)) ∧
    ((data.model = none → (cache_vehicle_data (some v) reg data now).model = v.model) ∧
     (∀ x : Option String, data.model = some x →
        (cache_vehicle_data (some v) reg data now).model = x)) ∧
    ((data.firstUsedDate = none → (cache_vehicle_data (some v) reg data now).first_used_date = v.first_used_date) ∧
     (∀ x : Option String, data.firstUsedDate = some x →
        (cache_vehicle_data (some v) reg data now).first_used_date = x)) ∧
    ((data.fuelType = none → (cache_vehicle_data (some v) reg data now).fuel_type = v.fuel_type) ∧
     (∀ x : Option String, data.fuelType = some x →
        (cache_vehicle_data (some v) reg data now).fuel_type = x)) ∧
    ((data.colour = none → (cache_vehicle_data (some v) reg data now).primary_colour = v.primary_colour) ∧
     (∀ x : Option String, data.colour = some x →
        (cache_vehicle_data (some v) reg data now).primary_colour = x)) ∧
    ((data.registrationDate = none → (cache_vehicle_data (some v) reg data now).registration_date = v.registration_date) ∧
     (∀ x : Option String, data.registrationDate = some x →
        (cache_vehicle_data (some v) reg data now).registration_date = x)) ∧
    ((data.manufactureDate = none → (cache_vehicle_data (some v) reg data now).manufacture_date = v.manufacture_date) ∧
     (∀ x : Option String, data.manufactureDate = some x →
        (cache_vehicle_data (some v) reg data now).manufacture_date = x)) ∧
    ((data.engineCapacity = none → (cache_vehicle_data (some v) reg data now).engine_size = v.engine_size) ∧
     (∀ x : Option Int, data.engineCapacity = some x →
        (cache_vehicle_data (some v) reg data now).engine_size = x)) ∧
    ((data.taxStatus = none → (cache_vehicle_data (some v) reg data now).tax_status = v.tax_status) ∧
     (∀ x : Option String, data.taxStatus = some x →
        (cache_vehicle_data (some v) reg data now).tax_status = x)) ∧
    ((data.taxDueDate = none → (cache_vehicle_data (some v) reg data now).tax_due_date = v.tax_due_date) ∧
     (∀ x : Option String, data.taxDueDate = some x →
        (cache_vehicle_data (some v) reg data now).tax_due_date = x)) ∧
    ((data.motStatus = none → (cache_vehicle_data (some v) reg data now).mot_status = v.mot_status) ∧
     (∀ x : Option String, data.motStatus = some x →
        (cache_vehicle_data (some v) reg data now).mot_status = x)) ∧
    ((data.motExpiryDate = none → (cache_vehicle_data (some v) reg data now).mot_expiry_date = v.mot_expiry_date) ∧
     (∀ x : Option String, data.motExpiryDate = some x →
        (cache_vehicle_data (some v) reg data now).mot_expiry_date = x)) ∧
    ((data.yearOfManufacture = none → (cache_vehicle_data (some v) reg data now).year_of_manufacture = v.year_of_manufacture) ∧
     (∀ x : Option Int, data.yearOfManufacture = some x →
        (cache_vehicle_data (some v) reg data now).year_of_manufacture = x)) ∧
    ((data.co2Emissions = none → (cache_vehicle_data (some v) reg data now).co2_emissions = v.co2_emissions) ∧
     (∀ x : Option Int, data.co2Emissions = some x →
        (cache_vehicle_data (some v) reg data now).co2_emissions = x)) ∧
    (cache_vehicle_data (some v) reg data now).mot_data
      = merge_mot_data v.mot_data (data.motTests.getD []) ∧
    (cache_vehicle_data (some v) reg data now).last_updated = now ∧
    (cache_vehicle_data (some v) reg data now).last_requested = now ∧
    (cache_vehicle_data (some v) reg data now).request_count = v.request_count + 1 := by
  refine ⟨⟨?_, ?_⟩, ?_⟩
  · intro h
    show (data.make).getD v.make = v.make
    rw [h]
    rfl
  · intro x h
    show (data.make).getD v.make = x
    rw [h]
    rfl
  refine ⟨⟨?_, ?_⟩, ?_⟩
  · intro h
    show (data.model).getD v.model = v.model
    rw [h]
    rfl
  · intro x h
    show (data.model).getD v.model = x
    rw [h]
    rfl
  refine ⟨⟨?_, ?_⟩, ?_⟩
  · intro h
    show (data.firstUsedDate).getD v.first_used_date = v.first_used_date
    rw [h]
    rfl
  · intro x h
    show (data.firstUsedDate).getD v.first_used_date = x
    rw [h]
    rfl
  refine ⟨⟨?_, ?_⟩, ?_⟩
  · intro h
    show (data.fuelType).getD v.fuel_type = v.fuel_type
    rw [h]
    rfl
  · intro x h
    show (data.fuelType).getD v.fuel_type = x
    rw [h]
    rfl
  refine ⟨⟨?_, ?_⟩, ?_⟩
  · intro h
    show (data.colour).getD v.primary_colour = v.primary_colour
    rw [h]
    rfl
  · intro x h
    show (data.colour).getD v.primary_colour = x
    rw [h]
    rfl
  refine ⟨⟨?_, ?_⟩, ?_⟩
  · intro h
    show (data.registrationDate).getD v.registration_date = v.registration_date
    rw [h]
    rfl
  · intro x h
    show (data.registrationDate).getD v.registration_date = x
    rw [h]
    rfl
  refine ⟨⟨?_, ?_⟩, ?_⟩
  · intro h
    show (data.manufactureDate).getD v.manufacture_date = v.manufacture_date
    rw [h]
    rfl
  · intro x h
    show (data.manufactureDate).getD v.manufacture_date = x
    rw [h]
    rfl
  refine ⟨⟨?_, ?_⟩, ?_⟩
  · intro h
    show (data.engineCapacity).getD v.engine_size = v.engine_size
    rw [h]
    rfl
  · intro x h
    show (data.engineCapacity).getD v.engine_size = x
    rw [h]
    rfl
  refine ⟨⟨?_, ?_⟩, ?_⟩
  · intro h
    show (data.taxStatus).getD v.tax_status = v.tax_status
    rw [h]
    rfl
  · intro x h
    show (data.taxStatus).getD v.tax_status = x
    rw [h]
    rfl
  refine ⟨⟨?_, ?_⟩, ?_⟩
  · intro h
    show (data.taxDueDate).getD v.tax_due_date = v.tax_due_date
    rw [h]
    rfl
  · intro x h
    show (data.taxDueDate).getD v.tax_due_date = x
    rw [h]
    rfl
  refine ⟨⟨?_, ?_⟩, ?_⟩
  · intro h
    show (data.motStatus).getD v.mot_status = v.mot_status
    rw [h]
    rfl
  · intro x h
    show (data.motStatus).getD v.mot_status = x
    rw [h]
    rfl
  refine ⟨⟨?_, ?_⟩, ?_⟩
  · intro h
    show (data.motExpiryDate).getD v.mot_expiry_date = v.mot_expiry_date
    rw [h]
    rfl
  · intro x h
    show (data.motExpiryDate).getD v.mot_expiry_date = x
    rw [h]
    rfl
  refine ⟨⟨?_, ?_⟩, ?_⟩
  · intro h
    show (data.yearOfManufacture).getD v.year_of_manufacture = v.year_of_manufacture
    rw [h]
    rfl
  · intro x h
    show (data.yearOfManufacture).getD v.year_of_manufacture = x
    rw [h]
    rfl
  refine ⟨⟨?_, ?_⟩, ?_⟩
  · intro h
    show (data.co2Emissions).getD v.co2_emissions = v.co2_emissions
    rw [h]
    rfl
  · intro x h
    show (data.co2Emissions).getD v.co2_emissions = x
    rw [h]
    rfl
  exact ⟨rfl, rfl, rfl, rfl⟩

/-- Witness for C7 at a concrete input: a present key overwrites, an absent
key retains. -/
theorem upsert_coalesce_fields_witness :
    (cache_vehicle_data
        (some { registration_number := "AB12CDE", make := some "FORD",
                model := some "ASTRA", mot_data := [], last_updated := 0,
                last_requested := 0, request_count := 1 })
        "AB12CDE" { make := some (some "VAUXHALL") } 9).make = some "VAUXHALL" ∧
    (cache_vehicle_data
        (some { registration_number := "AB12CDE", make := some "FORD",
                model := some "ASTRA", mot_data := [], last_updated := 0,
                last_requested := 0, request_count := 1 })
        "AB12CDE" { make := some (some "VAUXHALL") } 9).model = some "ASTRA" :=
  ⟨(upsert_coalesce_fields
      { registration_number := "AB12CDE", make := some "FORD", model := some "ASTRA",
        mot_data := [], last_updated := 0, last_requested := 0, request_count := 1 }
      "AB12CDE" { make := some (some "VAUXHALL") } 9).1.2 (some "VAUXHALL") rfl,
   (upsert_coalesce_fields
      { registration_number := "AB12CDE", make := some "FORD", model := some "ASTRA",
        mot_data := [], last_updated := 0, last_requested := 0, request_count := 1 }
      "AB12CDE" { make := some (some "VAUXHALL") } 9).2.1.1 rfl⟩


/-! ### Handler path lemmas -/

theorem gc_eq (v? : Option VehicleCache) (now : Int) :
    (if check_cache_exists v? then get_cached_vehicle_data v? now else (none, v?))
      = get_cached_vehicle_data v? now := by
  cases v? with
  | none => rfl
  | some v => rfl

theorem vehicle_route_logs_length (st : AppState) (reg : String) (now : Int)
    (ves : HttpResp) (token : Option String) (mot : Option HttpResp) :
    (vehicle_route st reg now ves token mot true).2.1.logs.length
      = st.logs.length + 1 := by
  simp only [vehicle_route, gc_eq]
  cases (get_cached_vehicle_data st.vehicle now).1 with
  | some v' => simp [log_request]
  | none =>
      cases get_vehicle_data ves token mot with
      | ok d => simp [log_request]
      | apiError m c => simp [log_request]
      | exc => simp [log_request]
theorem vehicle_route_cache_hit (st : AppState) (reg : String) (now : Int)
    (ves : HttpResp) (token : Option String) (mot : Option HttpResp) (v : VehicleCache)
    (hv : st.vehicle = some v)
    (hfresh : (now - v.last_updated).fdiv 86400 < 1) :
    vehicle_route st reg now ves token mot true =
      (.success { (normalize_record { v with
                      last_requested := now
                      request_count := v.request_count + 1 }) with
          request_count := some (v.request_count + 1 + 1) },
       { vehicle := some { v with
           last_requested := now
           request_count := v.request_count + 1 + 1 },
         logs := st.logs ++ [{ registration_number := reg, query_time := 0,
                               is_cached := true }] },
       false) := by
  simp only [vehicle_route, hv, check_cache_exists, Option.isSome_some, if_true,
    get_cached_vehicle_data, if_neg (not_le.mpr hfresh), log_request,
    increment_request_count, get_request_count]

theorem vehicle_route_fetch_ok (st : AppState) (reg : String) (now : Int)
    (ves : HttpResp) (token : Option String) (mot : Option HttpResp) (d : FreshData)
    (hmiss : (get_cached_vehicle_data st.vehicle now).1 = none)
    (hok : get_vehicle_data ves token mot = .ok d) :
    vehicle_route st reg now ves token mot true =
      (.success { normalize_fresh d with
          request_count := some ((cache_vehicle_data st.vehicle reg d now).request_count + 1) },
       { vehicle := some { cache_vehicle_data st.vehicle reg d now with
           request_count := (cache_vehicle_data st.vehicle reg d now).request_count + 1
           last_requested := now },
         logs := st.logs ++ [{ registration_number := reg, query_time := 0,
                               is_cached := check_cache_exists st.vehicle }] },
       true) := by
  simp only [vehicle_route, gc_eq, hmiss, hok, log_request, increment_request_count,
    get_request_count, if_true]

theorem vehicle_route_api_error (st : AppState) (reg : String) (now : Int)
    (ves : HttpResp) (token : Option String) (mot : Option HttpResp)
    (msg : String) (code : Int)
    (hmiss : (get_cached_vehicle_data st.vehicle now).1 = none)
    (herr : get_vehicle_data ves token mot = .apiError msg code) :
    vehicle_route st reg now ves token mot true =
      (.error msg code,
       { vehicle := increment_request_count st.vehicle now,
         logs := st.logs ++ [{ registration_number := reg, query_time := 0,
                               is_cached := check_cache_exists st.vehicle }] },
       true) := by
  simp only [vehicle_route, gc_eq, hmiss, herr, log_request, if_true]

theorem vehicle_route_exc (st : AppState) (reg : String) (now : Int)
    (ves : HttpResp) (token : Option String) (mot : Option HttpResp)
    (hmiss : (get_cached_vehicle_data st.vehicle now).1 = none)
    (herr : get_vehicle_data ves token mot = .exc) :
    vehicle_route st reg now ves token mot true =
      (.error "An unexpected error occurred" 500,
       { vehicle := increment_request_count st.vehicle now,
         logs := st.logs ++ [{ registration_number := reg, query_time := 0,
                               is_cached := check_cache_exists st.vehicle }] },
       true) := by
  simp only [vehicle_route, gc_eq, hmiss, herr, log_request, if_true]

theorem vehicle_route_log_failure (st : AppState) (reg : String) (now : Int)
    (ves : HttpResp) (token : Option String) (mot : Option HttpResp) :
    (vehicle_route st reg now ves token mot false).1 = frameworkResp ∧
    (vehicle_route st reg now ves token mot false).2.1.logs = st.logs := by
  simp only [vehicle_route, gc_eq]
  cases (get_cached_vehicle_data st.vehicle now).1 with
  | some v' => simp
  | none =>
      cases get_vehicle_data ves token mot with
      | ok d => simp
      | apiError m c => simp
      | exc => simp

/-- Counterexample for C8: with an existing stale record (counter 7), a VES
not-found response yields the 404 — but the request-log write bumps the
record's `request_count` to 8, contradicting \"its requestCount is unchanged
by the failed request\". -/
theorem notfound_request_count_counterexample :
    (vehicle_route
        ⟨some { registration_number := "AB12CDE", mot_data := [], last_updated := 0,
                last_requested := 0, request_count := 7 }, []⟩
        "AB12CDE" 90000 { status_code := 404, body := {} } (some "t")
        (some { status_code := 200, body := {} }) true).1
      = Response.error "Vehicle not found" 404 ∧
    get_request_count
      (vehicle_route
        ⟨some { registration_number := "AB12CDE", mot_data := [], last_updated := 0,
                last_requested := 0, request_count := 7 }, []⟩
        "AB12CDE" 90000 { status_code := 404, body := {} } (some "t")
        (some { status_code := 200, body := {} }) true).2.1.vehicle = 8 ∧
    (8 : Int) ≠ 7 := by
  refine ⟨by decide, by decide, by decide⟩

/-- C8 (amended): on a cache miss/stale, a VES not-found response makes the
pipeline return 404 with no upsert — the cached row keeps all its fields —
but the request-log write still increments `request_count` (and touches
`last_requested`) when a record exists; an absent record stays absent. -/
theorem notfound_404_no_upsert (st : AppState) (reg : String) (now : Int)
    (ves : HttpResp) (token : Option String) (mot : Option HttpResp)
    (hves : ves.status_code = 404)
    (hmiss : (get_cached_vehicle_data st.vehicle now).1 = none) :
    (vehicle_route st reg now ves token mot true).1
        = Response.error "Vehicle not found" 404 ∧
    (vehicle_route st reg now ves token mot true).2.1.vehicle
        = increment_request_count st.vehicle now ∧
    (st.vehicle = none →
      (vehicle_route st reg now ves token mot true).2.1.vehicle = none) ∧
    (∀ v : VehicleCache, st.vehicle = some v →
      (vehicle_route st reg now ves token mot true).2.1.vehicle
        = some { v with
            request_count := v.request_count + 1
            last_requested := now }) := by
  have herr : get_vehicle_data ves token mot = .apiError "Vehicle not found" 404 := by
    simp [get_vehicle_data, hves]
  rw [vehicle_route_api_error st reg now ves token mot _ _ hmiss herr]
  refine ⟨rfl, rfl, ?_, ?_⟩
  · intro h; rw [h]; rfl
  · intro v h; rw [h]; rfl

/-- Witness for C8 at a concrete input: stale record with counter 7, VES
404; the pipeline answers 404 and the only change to the row is the
counter/`last_requested` bump of the request log. -/
theorem notfound_404_no_upsert_witness :
    (vehicle_route
        ⟨some { registration_number := "AB12CDE", mot_data := [], last_updated := 0,
                last_requested := 0, request_count := 7 }, []⟩
        "AB12CDE" 90000 { status_code := 404, body := {} } (some "t")
        (some { status_code := 200, body := {} }) true).1
      = Response.error "Vehicle not found" 404 ∧
    (vehicle_route
        ⟨some { registration_number := "AB12CDE", mot_data := [], last_updated := 0,
                last_requested := 0, request_count := 7 }, []⟩
        "AB12CDE" 90000 { status_code := 404, body := {} } (some "t")
        (some { status_code := 200, body := {} }) true).2.1.vehicle
      = some { registration_number := "AB12CDE", mot_data := [], last_updated := 0,
               last_requested := 90000, request_count := 7 + 1 } :=
  ⟨(notfound_404_no_upsert
      ⟨some { registration_number := "AB12CDE", mot_data := [], last_updated := 0,
              last_requested := 0, request_count := 7 }, []⟩
      "AB12CDE" 90000 { status_code := 404, body := {} } (some "t")
      (some { status_code := 200, body := {} }) rfl (by decide)).1,
   (notfound_404_no_upsert
      ⟨some { registration_number := "AB12CDE", mot_data := [], last_updated := 0,
              last_requested := 0, request_count := 7 }, []⟩
      "AB12CDE" 90000 { status_code := 404, body := {} } (some "t")
      (some { status_code := 200, body := {} }) rfl (by decide)).2.2.2
      { registration_number := "AB12CDE", mot_data := [], last_updated := 0,
        last_requested := 0, request_count := 7 } rfl⟩

/-- Counterexample for C9: a rate-limited rejection — a declared terminal
state — produces zero `RequestLog` rows, not exactly one. -/
theorem rate_limited_not_logged_counterexample :
    (rate_limit_route { requests := [0, 1, 2, 3, 4, 5, 6, 7, 8, 9] } ⟨none, []⟩
        "AB12CDE" 30 { status_code := 200, body := {} } (some "t")
        (some { status_code := 200, body := {} }) true).1
      = Response.error "Rate limit exceeded. Please try again later." 429 ∧
    (rate_limit_route { requests := [0, 1, 2, 3, 4, 5, 6, 7, 8, 9] } ⟨none, []⟩
        "AB12CDE" 30 { status_code := 200, body := {} } (some "t")
        (some { status_code := 200, body := {} }) true).2.1.logs.length = 0 ∧
    (0 : Nat) ≠ 1 := by
  refine ⟨by decide, by decide, by decide⟩

/-- C9 (amended): when the limiter admits and log writes succeed, every
terminal outcome of the handler (success, VehicleAPIError, unexpected
exception) appends exactly one `RequestLog` row; a rate-limited rejection
returns 429 and appends none; and a failure while writing the log row makes
the handler itself fail, replacing the original response with the
framework's 500 — logging is not best-effort. -/
theorem terminal_outcomes_logging (rl : RateLimiter) (st : AppState) (reg : String)
    (now : Int) (ves : HttpResp) (token : Option String) (mot : Option HttpResp) :
    ((is_rate_limited rl now).1 = false →
      (rate_limit_route rl st reg now ves token mot true).2.1.logs.length
        = st.logs.length + 1) ∧
    ((is_rate_limited rl now).1 = true →
      (rate_limit_route rl st reg now ves token mot true).1
          = Response.error "Rate limit exceeded. Please try again later." 429 ∧
      (rate_limit_route rl st reg now ves token mot true).2.1.logs = st.logs) ∧
    ((is_rate_limited rl now).1 = false →
      (rate_limit_route rl st reg now ves token mot false).1 = frameworkResp ∧
      (rate_limit_route rl st reg now ves token mot false).2.1.logs = st.logs) := by
  refine ⟨?_, ?_, ?_⟩
  · intro h
    simp only [rate_limit_route, h, Bool.false_eq_true, if_false]
    exact vehicle_route_logs_length st reg now ves token mot
  · intro h
    simp [rate_limit_route, h]
  · intro h
    simp only [rate_limit_route, h, Bool.false_eq_true, if_false]
    exact vehicle_route_log_failure st reg now ves token mot

/-- Witness for C9: an admitted not-found request appends exactly one log
row, and the same request with a failing log write returns the framework
500 with no row appended. -/
theorem terminal_outcomes_logging_witness :
    (rate_limit_route {} ⟨none, []⟩ "AB12CDE" 0 { status_code := 404, body := {} }
        (some "t") (some { status_code := 200, body := {} }) true).2.1.logs.length
      = 0 + 1 ∧
    (rate_limit_route {} ⟨none, []⟩ "AB12CDE" 0 { status_code := 404, body := {} }
        (some "t") (some { status_code := 200, body := {} }) false).1
      = frameworkResp :=
  ⟨(terminal_outcomes_logging {} ⟨none, []⟩ "AB12CDE" 0
      { status_code := 404, body := {} } (some "t")
      (some { status_code := 200, body := {} })).1 (by decide),
   ((terminal_outcomes_logging {} ⟨none, []⟩ "AB12CDE" 0
      { status_code := 404, body := {} } (some "t")
      (some { status_code := 200, body := {} })).2.2 (by decide)).1⟩

theorem get_cached_stale (v : VehicleCache) (now : Int)
    (h : 1 ≤ (now - v.last_updated).fdiv 86400) :
    get_cached_vehicle_data (some v) now = (none, some v) := by
  simp [get_cached_vehicle_data, h]

/-- C1 (amended): three-request scenario. -/
theorem lookup_pipeline_scenario (reg : String) (d1 d3 : FreshData)
    (l1 l3 : List MotTest) (t1 t2 t3 : Int)
    (ves1 ves2 ves3 : HttpResp) (tok1 tok2 tok3 : Option String)
    (mot1 mot2 mot3 : Option HttpResp)
    (r1 r2 r3 : Response × AppState × Bool)
    (h1 : get_vehicle_data ves1 tok1 mot1 = .ok d1)
    (h3 : get_vehicle_data ves3 tok3 mot3 = .ok d3)
    (hl1 : d1.motTests = some l1) (hl3 : d3.motTests = some l3)
    (ht2 : (t2 - t1).fdiv 86400 < 1)
    (ht3 : 1 ≤ (t3 - t1).fdiv 86400)
    (hr1 : r1 = vehicle_route ⟨none, []⟩ reg t1 ves1 tok1 mot1 true)
    (hr2 : r2 = vehicle_route r1.2.1 reg t2 ves2 tok2 mot2 true)
    (hr3 : r3 = vehicle_route r2.2.1 reg t3 ves3 tok3 mot3 true) :
    r1.2.2 = true ∧ get_request_count r1.2.1.vehicle = 2 ∧
    respMotTests r1.1 = some l1 ∧
    r2.2.2 = false ∧ get_request_count r2.2.1.vehicle = 4 ∧
    respMotTests r2.1 = some l1 ∧
    r3.2.2 = true ∧ get_request_count r3.2.1.vehicle = 6 ∧
    r3.2.1.vehicle.map (fun v => v.mot_data) = some (merge_mot_data l1 l3) ∧
    ((merge_mot_data l1 l3).map (fun t => t.completedDate)).Nodup := by
  subst hr1; subst hr2; subst hr3
  have e1 := vehicle_route_fetch_ok ⟨none, []⟩ reg t1 ves1 tok1 mot1 d1 rfl h1
  have hv2 : (vehicle_route ⟨none, []⟩ reg t1 ves1 tok1 mot1 true).2.1.vehicle
      = some { cache_vehicle_data none reg d1 t1 with
          request_count := (cache_vehicle_data none reg d1 t1).request_count + 1
          last_requested := t1 } := by rw [e1]
  have e2 := vehicle_route_cache_hit
    ((vehicle_route ⟨none, []⟩ reg t1 ves1 tok1 mot1 true).2.1) reg t2 ves2 tok2 mot2
    { cache_vehicle_data none reg d1 t1 with
        request_count := (cache_vehicle_data none reg d1 t1).request_count + 1
        last_requested := t1 } hv2 ht2
  have hv3 : (vehicle_route ((vehicle_route ⟨none, []⟩ reg t1 ves1 tok1 mot1 true).2.1)
        reg t2 ves2 tok2 mot2 true).2.1.vehicle
      = some { cache_vehicle_data none reg d1 t1 with
          last_requested := t2
          request_count := (cache_vehicle_data none reg d1 t1).request_count + 1 + 1 + 1 } := by
    rw [e2]
  have hmiss3 : (get_cached_vehicle_data
      ((vehicle_route ((vehicle_route ⟨none, []⟩ reg t1 ves1 tok1 mot1 true).2.1)
        reg t2 ves2 tok2 mot2 true).2.1).vehicle t3).1 = none := by
    rw [hv3, get_cached_stale _ t3 ht3]
  have e3 := vehicle_route_fetch_ok
    ((vehicle_route ((vehicle_route ⟨none, []⟩ reg t1 ves1 tok1 mot1 true).2.1)
      reg t2 ves2 tok2 mot2 true).2.1) reg t3 ves3 tok3 mot3 d3 hmiss3 h3
  rw [hv3] at e3
  refine ⟨?_, ?_, ?_, ?_, ?_, ?_, ?_, ?_, ?_, ?_⟩
  · rw [e1]
  · rw [hv2]; rfl
  · rw [e1]
    show d1.motTests = some l1
    exact hl1
  · rw [e2]
  · rw [e2]; rfl
  · rw [e2]
    show some (d1.motTests.getD []) = some l1
    rw [hl1]
    rfl
  · rw [e3]
  · rw [e3]; rfl
  · rw [e3]
    show some (merge_mot_data (d1.motTests.getD []) (d3.motTests.getD []))
        = some (merge_mot_data l1 l3)
    rw [hl1, hl3]
    rfl
  · exact merge_dates_nodup l1 l3

/-- Counterexample for C1: on a fresh registration the first request leaves
`requestCount = 2`, not 1 (the counter is bumped once by the cache write and
once more by `log_request`); and the second, cached response is not the same
data as the first — the fresh response's `primary_colour` is null because
`normalize_vehicle_data` never reads the upstream `colour` key, while the
cached response carries the colour. -/
theorem request_count_double_bump_counterexample :
    get_request_count (vehicle_route ⟨none, []⟩ "AB12CDE" 0 { status_code := 200, body := { colour := some (some "RED"), motTests := some [] } } (some "t") (some { status_code := 500, body := {} }) true).2.1.vehicle = 2 ∧
    (2 : Int) ≠ 1 ∧
    respPrimaryColour (vehicle_route ⟨none, []⟩ "AB12CDE" 0 { status_code := 200, body := { colour := some (some "RED"), motTests := some [] } } (some "t") (some { status_code := 500, body := {} }) true).1 = none ∧
    respPrimaryColour (vehicle_route (vehicle_route ⟨none, []⟩ "AB12CDE" 0 { status_code := 200, body := { colour := some (some "RED"), motTests := some [] } } (some "t") (some { status_code := 500, body := {} }) true).2.1 "AB12CDE" 3600 { status_code := 200, body := { colour := some (some "RED"), motTests := some [] } } (some "t") (some { status_code := 500, body := {} }) true).1 = some "RED" := by
  refine ⟨by decide, by decide, by decide, by decide⟩

/-- Witness for C1 at concrete inputs: counters 2, 4, 6 across the three
requests. -/
theorem lookup_pipeline_scenario_witness :
    get_request_count (vehicle_route ⟨none, []⟩ "AB12CDE" 0 { status_code := 200, body := { motTests := some [MotTest.mk 10 0] } } (some "t") (some { status_code := 500, body := {} }) true).2.1.vehicle = 2 ∧
    get_request_count (vehicle_route (vehicle_route ⟨none, []⟩ "AB12CDE" 0 { status_code := 200, body := { motTests := some [MotTest.mk 10 0] } } (some "t") (some { status_code := 500, body := {} }) true).2.1 "AB12CDE" 3600 { status_code := 200, body := { motTests := some [MotTest.mk 10 0] } } (some "t") (some { status_code := 500, body := {} }) true).2.1.vehicle = 4 ∧
    get_request_count (vehicle_route (vehicle_route (vehicle_route ⟨none, []⟩ "AB12CDE" 0 { status_code := 200, body := { motTests := some [MotTest.mk 10 0] } } (some "t") (some { status_code := 500, body := {} }) true).2.1 "AB12CDE" 3600 { status_code := 200, body := { motTests := some [MotTest.mk 10 0] } } (some "t") (some { status_code := 500, body := {} }) true).2.1 "AB12CDE" 90000 { status_code := 200, body := { motTests := some [MotTest.mk 10 5, MotTest.mk 12 6] } } (some "t") (some { status_code := 500, body := {} }) true).2.1.vehicle = 6 :=
  ⟨(lookup_pipeline_scenario "AB12CDE"
      (ensureMotTests { motTests := some [MotTest.mk 10 0] })
      (ensureMotTests { motTests := some [MotTest.mk 10 5, MotTest.mk 12 6] })
      [MotTest.mk 10 0] [MotTest.mk 10 5, MotTest.mk 12 6] 0 3600 90000
      { status_code := 200, body := { motTests := some [MotTest.mk 10 0] } }
      { status_code := 200, body := { motTests := some [MotTest.mk 10 0] } }
      { status_code := 200, body := { motTests := some [MotTest.mk 10 5, MotTest.mk 12 6] } }
      (some "t") (some "t") (some "t")
      (some { status_code := 500, body := {} }) (some { status_code := 500, body := {} })
      (some { status_code := 500, body := {} }) _ _ _
      (by decide) (by decide) (by decide) (by decide)
      (by decide) (by decide) rfl rfl rfl).2.1,
   (lookup_pipeline_scenario "AB12CDE"
      (ensureMotTests { motTests := some [MotTest.mk 10 0] })
      (ensureMotTests { motTests := some [MotTest.mk 10 5, MotTest.mk 12 6] })
      [MotTest.mk 10 0] [MotTest.mk 10 5, MotTest.mk 12 6] 0 3600 90000
      { status_code := 200, body := { motTests := some [MotTest.mk 10 0] } }
      { status_code := 200, body := { motTests := some [MotTest.mk 10 0] } }
      { status_code := 200, body := { motTests := some [MotTest.mk 10 5, MotTest.mk 12 6] } }
      (some "t") (some "t") (some "t")
      (some { status_code := 500, body := {} }) (some { status_code := 500, body := {} })
      (some { status_code := 500, body := {} }) _ _ _
      (by decide) (by decide) (by decide) (by decide)
      (by decide) (by decide) rfl rfl rfl).2.2.2.2.1,
   (lookup_pipeline_scenario "AB12CDE"
      (ensureMotTests { motTests := some [MotTest.mk 10 0] })
      (ensureMotTests { motTests := some [MotTest.mk 10 5, MotTest.mk 12 6] })
      [MotTest.mk 10 0] [MotTest.mk 10 5, MotTest.mk 12 6] 0 3600 90000
      { status_code := 200, body := { motTests := some [MotTest.mk 10 0] } }
      { status_code := 200, body := { motTests := some [MotTest.mk 10 0] } }
      { status_code := 200, body := { motTests := some [MotTest.mk 10 5, MotTest.mk 12 6] } }
      (some "t") (some "t") (some "t")
      (some { status_code := 500, body := {} }) (some { status_code := 500, body := {} })
      (some { status_code := 500, body := {} }) _ _ _
      (by decide) (by decide) (by decide) (by decide)
      (by decide) (by decide) rfl rfl rfl).2.2.2.2.2.2.2.1⟩

end Regspy



